import Mathlib

set_option maxRecDepth 8192

/-
Verification of the schema-normalization and code-generation core of the
mysql-to-json repository.

The JavaScript source is shallowly embedded: JS values appearing in raw
catalog rows are modelled by the type JsVal; plain JS objects holding a raw
catalog row are modelled by RawObj (a field is none when the key is absent);
JS strings are Lean String; JS numbers that occur in catalog rows are
modelled as Int (only typeof checks and verbatim re-rendering are performed
on them); functions that can throw return Except String.

Core String functions of Lean (toLower, replace, startsWith) do not reduce
well inside the kernel, so character-list based equivalents are defined
below and used throughout.  They model the JavaScript operations on the
ASCII range, which is the range the embedded string literals live in.
-/

/-! ### String helpers (ASCII models of the JS string operations used) -/

/-- ASCII lower-casing of one character, models the effect of
JavaScript toLowerCase on ASCII input. -/
def lowerChar (c : Char) : Char :=
  if 65 ≤ c.toNat ∧ c.toNat ≤ 90 then Char.ofNat (c.toNat + 32) else c

/-- ASCII lower-casing of a string, models JS String.prototype.toLowerCase. -/
def lowerStr (s : String) : String :=
  ⟨s.data.map lowerChar⟩

/-- ASCII upper-casing of one character. -/
def upperChar (c : Char) : Char :=
  if 97 ≤ c.toNat ∧ c.toNat ≤ 122 then Char.ofNat (c.toNat - 32) else c

/-- ASCII upper-casing of a string, models JS String.prototype.toUpperCase. -/
def upperStr (s : String) : String :=
  ⟨s.data.map upperChar⟩

/-- Helper for substring search on character lists. -/
def strContainsAux (pat : List Char) : List Char → Bool
  | [] => pat.isEmpty
  | c :: rest => List.isPrefixOf pat (c :: rest) || strContainsAux pat rest

/-- Substring test: models both JS String.prototype.includes and an
unanchored regular-expression literal such as /bigint/.test(s). -/
def strContains (hay pat : String) : Bool :=
  strContainsAux pat.data hay.data

/-- Prefix test: models the anchored regular-expression alternative ^pat. -/
def startsWithStr (s pat : String) : Bool :=
  List.isPrefixOf pat.data s.data

/-- Replace every occurrence of the single character c by the string repl;
models a global single-character regex replace such as s.replace(/x/g, r). -/
def replaceAllChar (c : Char) (repl : String) (s : String) : String :=
  ⟨(s.data.map (fun x => if x = c then repl.data else [x])).flatten⟩

/-! ### JavaScript values and raw catalog rows -/

/-- A JavaScript value as it can appear in one field of a raw catalog row. -/
inductive JsVal where
  | vstr : String → JsVal
  | vnum : Int → JsVal
  | vbool : Bool → JsVal
  | vnull : JsVal
  | vundefined : JsVal
deriving DecidableEq

/-- The JS typeof operator restricted to JsVal (typeof null is "object"). -/
def jsTypeof : JsVal → String
  | .vstr _ => "string"
  | .vnum _ => "number"
  | .vbool _ => "boolean"
  | .vnull => "object"
  | .vundefined => "undefined"

/-- String interpolation of a JsVal, as a JS template literal renders it. -/
def jsDisplay : JsVal → String
  | .vstr s => s
  | .vnum n => toString n
  | .vbool true => "true"
  | .vbool false => "false"
  | .vnull => "null"
  | .vundefined => "undefined"

/-- A raw catalog row (ColumnMetadataRaw) as an untyped JS object with the
22 known keys.  A field holding none models an object on which the key is
absent; reading such a key yields the JS value undefined. -/
structure RawObj where
  TABLE_CATALOG : Option JsVal := none
  TABLE_SCHEMA : Option JsVal := none
  TABLE_NAME : Option JsVal := none
  COLUMN_NAME : Option JsVal := none
  ORDINAL_POSITION : Option JsVal := none
  COLUMN_DEFAULT : Option JsVal := none
  IS_NULLABLE : Option JsVal := none
  DATA_TYPE : Option JsVal := none
  CHARACTER_MAXIMUM_LENGTH : Option JsVal := none
  CHARACTER_OCTET_LENGTH : Option JsVal := none
  NUMERIC_PRECISION : Option JsVal := none
  NUMERIC_SCALE : Option JsVal := none
  DATETIME_PRECISION : Option JsVal := none
  CHARACTER_SET_NAME : Option JsVal := none
  COLLATION_NAME : Option JsVal := none
  COLUMN_TYPE : Option JsVal := none
  COLUMN_KEY : Option JsVal := none
  EXTRA : Option JsVal := none
  PRIVILEGES : Option JsVal := none
  COLUMN_COMMENT : Option JsVal := none
  IS_GENERATED : Option JsVal := none
  GENERATION_EXPRESSION : Option JsVal := none
deriving DecidableEq

/-- Key lookup on a raw row object, modelling the JS expression key in obj
(some) versus key absent (none). -/
def getRawField (r : RawObj) : String → Option JsVal
  | "TABLE_CATALOG" => r.TABLE_CATALOG
  | "TABLE_SCHEMA" => r.TABLE_SCHEMA
  | "TABLE_NAME" => r.TABLE_NAME
  | "COLUMN_NAME" => r.COLUMN_NAME
  | "ORDINAL_POSITION" => r.ORDINAL_POSITION
  | "COLUMN_DEFAULT" => r.COLUMN_DEFAULT
  | "IS_NULLABLE" => r.IS_NULLABLE
  | "DATA_TYPE" => r.DATA_TYPE
  | "CHARACTER_MAXIMUM_LENGTH" => r.CHARACTER_MAXIMUM_LENGTH
  | "CHARACTER_OCTET_LENGTH" => r.CHARACTER_OCTET_LENGTH
  | "NUMERIC_PRECISION" => r.NUMERIC_PRECISION
  | "NUMERIC_SCALE" => r.NUMERIC_SCALE
  | "DATETIME_PRECISION" => r.DATETIME_PRECISION
  | "CHARACTER_SET_NAME" => r.CHARACTER_SET_NAME
  | "COLLATION_NAME" => r.COLLATION_NAME
  | "COLUMN_TYPE" => r.COLUMN_TYPE
  | "COLUMN_KEY" => r.COLUMN_KEY
  | "EXTRA" => r.EXTRA
  | "PRIVILEGES" => r.PRIVILEGES
  | "COLUMN_COMMENT" => r.COLUMN_COMMENT
  | "IS_GENERATED" => r.IS_GENERATED
  | "GENERATION_EXPRESSION" => r.GENERATION_EXPRESSION
  | _ => none

/-- Property read obj[key]: an absent key reads as undefined. -/
def accessRaw (r : RawObj) (k : String) : JsVal :=
  (getRawField r k).getD .vundefined

/-! ### SchemaValidator: assertColumnMetadataRaw
(src/unnamed/part_000, function assertColumnMetadataRaw) -/

/-- The thirteen required keys, in the order the source lists them. -/
def requiredKeys : List String :=
  ["TABLE_CATALOG", "TABLE_SCHEMA", "TABLE_NAME", "COLUMN_NAME",
   "ORDINAL_POSITION", "IS_NULLABLE", "DATA_TYPE", "COLUMN_TYPE",
   "COLUMN_KEY", "EXTRA", "PRIVILEGES", "COLUMN_COMMENT", "IS_GENERATED"]

/-- Per-field validators in the order of the validators object literal of
the source.  Each JS validator returns true or an error-message string;
here the passing case is none and the failing case carries the message. -/
def columnValidators : List (String × (JsVal → Option String)) :=
  [("TABLE_CATALOG", fun v =>
      if jsTypeof v = "string" then none
      else some ("Expected string, got " ++ jsTypeof v)),
   ("TABLE_SCHEMA", fun v =>
      if jsTypeof v = "string" then none
      else some ("Expected string, got " ++ jsTypeof v)),
   ("TABLE_NAME", fun v =>
      if jsTypeof v = "string" then none
      else some ("Expected string, got " ++ jsTypeof v)),
   ("COLUMN_NAME", fun v =>
      if jsTypeof v = "string" then none
      else some ("Expected string, got " ++ jsTypeof v)),
   ("ORDINAL_POSITION", fun v =>
      if jsTypeof v = "number" then none
      else some ("Expected number, got " ++ jsTypeof v)),
   ("COLUMN_DEFAULT", fun v =>
      if v = .vnull ∨ jsTypeof v = "string" then none
      else some ("Expected string or null, got " ++ jsTypeof v)),
   ("IS_NULLABLE", fun v =>
      if v = .vstr "YES" ∨ v = .vstr "NO" then none
      else some ("Expected \x27YES\x27 or \x27NO\x27, got " ++ jsDisplay v)),
   ("DATA_TYPE", fun v =>
      if jsTypeof v = "string" then none
      else some ("Expected string, got " ++ jsTypeof v)),
   ("CHARACTER_MAXIMUM_LENGTH", fun v =>
      if v = .vnull ∨ jsTypeof v = "number" then none
      else some ("Expected number or null, got " ++ jsTypeof v)),
   ("CHARACTER_OCTET_LENGTH", fun v =>
      if v = .vnull ∨ jsTypeof v = "number" then none
      else some ("Expected number or null, got " ++ jsTypeof v)),
   ("NUMERIC_PRECISION", fun v =>
      if v = .vnull ∨ jsTypeof v = "number" then none
      else some ("Expected number or null, got " ++ jsTypeof v)),
   ("NUMERIC_SCALE", fun v =>
      if v = .vnull ∨ jsTypeof v = "number" then none
      else some ("Expected number or null, got " ++ jsTypeof v)),
   ("DATETIME_PRECISION", fun v =>
      if v = .vnull ∨ jsTypeof v = "number" then none
      else some ("Expected number or null, got " ++ jsTypeof v)),
   ("CHARACTER_SET_NAME", fun v =>
      if v = .vnull ∨ jsTypeof v = "string" then none
      else some ("Expected string or null, got " ++ jsTypeof v)),
   ("COLLATION_NAME", fun v =>
      if v = .vnull ∨ jsTypeof v = "string" then none
      else some ("Expected string or null, got " ++ jsTypeof v)),
   ("COLUMN_TYPE", fun v =>
      if jsTypeof v = "string" then none
      else some ("Expected string, got " ++ jsTypeof v)),
   ("COLUMN_KEY", fun v =>
      if v = .vstr "PRI" ∨ v = .vstr "UNI" ∨ v = .vstr "MUL" ∨ v = .vstr "" then none
      else some ("Expected \x27PRI\x27, \x27UNI\x27, \x27MUL\x27 or empty string, got " ++ jsDisplay v)),
   ("EXTRA", fun v =>
      if jsTypeof v = "string" then none
      else some ("Expected string, got " ++ jsTypeof v)),
   ("PRIVILEGES", fun v =>
      if jsTypeof v = "string" then none
      else some ("Expected string, got " ++ jsTypeof v)),
   ("COLUMN_COMMENT", fun v =>
      if jsTypeof v = "string" then none
      else some ("Expected string, got " ++ jsTypeof v)),
   ("IS_GENERATED", fun v =>
      if v = .vstr "NEVER" ∨ v = .vstr "ALWAYS" ∨ jsTypeof v = "string" then none
      else some ("Expected \x27NEVER\x27, \x27ALWAYS\x27 or string, got " ++ jsDisplay v)),
   ("GENERATION_EXPRESSION", fun v =>
      if v = .vnull ∨ jsTypeof v = "string" then none
      else some ("Expected string or null, got " ++ jsTypeof v))]

/-- The required-key presence loop of assertColumnMetadataRaw. -/
def checkRequiredKeys (r : RawObj) : List String → Except String Unit
  | [] => .ok ()
  | k :: ks =>
      if (getRawField r k).isSome then checkRequiredKeys r ks
      else .error ("Missing required field: " ++ k)

/-- The validator loop of assertColumnMetadataRaw. -/
def runFieldValidators (r : RawObj) :
    List (String × (JsVal → Option String)) → Except String Unit
  | [] => .ok ()
  | (k, f) :: rest =>
      match f (accessRaw r k) with
      | some msg => .error ("Invalid " ++ k ++ ": " ++ msg)
      | none => runFieldValidators r rest

/-- Validate a raw column metadata object (assertColumnMetadataRaw).  The
JS function receives an object here by construction, so the initial
non-null-object check never fires in this embedding; on success the JS
function returns true. -/
def assertColumnMetadataRaw (r : RawObj) : Except String Bool := do
  let _ ← checkRequiredKeys r requiredKeys
  let _ ← runFieldValidators r columnValidators
  pure true

/-! ### Spec-side shape predicates for the validator
(refinement targets; these follow the wording of the specification) -/

/-- Shape test: the value is a JS string. -/
def isStringV : JsVal → Bool
  | .vstr _ => true
  | _ => false

/-- Shape test: the value is a JS number. -/
def isNumberV : JsVal → Bool
  | .vnum _ => true
  | _ => false

/-- Shape test: the value is a JS string or null. -/
def isStringOrNullV : JsVal → Bool
  | .vstr _ => true
  | .vnull => true
  | _ => false

/-- Shape test: the value is a JS number or null. -/
def isNumberOrNullV : JsVal → Bool
  | .vnum _ => true
  | .vnull => true
  | _ => false

/-- Shape test for the isNullable enumeration. -/
def isNullableShape (v : JsVal) : Bool :=
  v == .vstr "YES" || v == .vstr "NO"

/-- Shape test for the columnKey enumeration. -/
def columnKeyShape (v : JsVal) : Bool :=
  v == .vstr "PRI" || v == .vstr "UNI" || v == .vstr "MUL" || v == .vstr ""

/-- Spec-side row validity: every one of the 22 catalog fields, required or
optional alike, is present and its value matches the declared shape (an
absent field reads as undefined and matches no shape). -/
def allFieldsValid (r : RawObj) : Bool :=
  isStringV (accessRaw r "TABLE_CATALOG") &&
  (isStringV (accessRaw r "TABLE_SCHEMA") &&
  (isStringV (accessRaw r "TABLE_NAME") &&
  (isStringV (accessRaw r "COLUMN_NAME") &&
  (isNumberV (accessRaw r "ORDINAL_POSITION") &&
  (isStringOrNullV (accessRaw r "COLUMN_DEFAULT") &&
  (isNullableShape (accessRaw r "IS_NULLABLE") &&
  (isStringV (accessRaw r "DATA_TYPE") &&
  (isNumberOrNullV (accessRaw r "CHARACTER_MAXIMUM_LENGTH") &&
  (isNumberOrNullV (accessRaw r "CHARACTER_OCTET_LENGTH") &&
  (isNumberOrNullV (accessRaw r "NUMERIC_PRECISION") &&
  (isNumberOrNullV (accessRaw r "NUMERIC_SCALE") &&
  (isNumberOrNullV (accessRaw r "DATETIME_PRECISION") &&
  (isStringOrNullV (accessRaw r "CHARACTER_SET_NAME") &&
  (isStringOrNullV (accessRaw r "COLLATION_NAME") &&
  (isStringV (accessRaw r "COLUMN_TYPE") &&
  (columnKeyShape (accessRaw r "COLUMN_KEY") &&
  (isStringV (accessRaw r "EXTRA") &&
  (isStringV (accessRaw r "PRIVILEGES") &&
  (isStringV (accessRaw r "COLUMN_COMMENT") &&
  (isStringV (accessRaw r "IS_GENERATED") &&
  (isStringOrNullV (accessRaw r "GENERATION_EXPRESSION"))))))))))))))))))))))

/-- Spec-side reading of the claim on C2: every required field present, and
every field that is present matches its declared shape (absent optional
fields are not constrained). -/
def presentFieldsValid (r : RawObj) : Bool :=
  (r.TABLE_CATALOG.all isStringV) &&
  (r.TABLE_SCHEMA.all isStringV) &&
  (r.TABLE_NAME.all isStringV) &&
  (r.COLUMN_NAME.all isStringV) &&
  (r.ORDINAL_POSITION.all isNumberV) &&
  (r.COLUMN_DEFAULT.all isStringOrNullV) &&
  (r.IS_NULLABLE.all isNullableShape) &&
  (r.DATA_TYPE.all isStringV) &&
  (r.CHARACTER_MAXIMUM_LENGTH.all isNumberOrNullV) &&
  (r.CHARACTER_OCTET_LENGTH.all isNumberOrNullV) &&
  (r.NUMERIC_PRECISION.all isNumberOrNullV) &&
  (r.NUMERIC_SCALE.all isNumberOrNullV) &&
  (r.DATETIME_PRECISION.all isNumberOrNullV) &&
  (r.CHARACTER_SET_NAME.all isStringOrNullV) &&
  (r.COLLATION_NAME.all isStringOrNullV) &&
  (r.COLUMN_TYPE.all isStringV) &&
  (r.COLUMN_KEY.all columnKeyShape) &&
  (r.EXTRA.all isStringV) &&
  (r.PRIVILEGES.all isStringV) &&
  (r.COLUMN_COMMENT.all isStringV) &&
  (r.IS_GENERATED.all isStringV) &&
  (r.GENERATION_EXPRESSION.all isStringOrNullV)

/-- Remove one key from a raw row object (used to state the claim about
deleting a required field). -/
def removeRawField (k : String) (r : RawObj) : RawObj :=
  match k with
  | "TABLE_CATALOG" => { r with TABLE_CATALOG := none }
  | "TABLE_SCHEMA" => { r with TABLE_SCHEMA := none }
  | "TABLE_NAME" => { r with TABLE_NAME := none }
  | "COLUMN_NAME" => { r with COLUMN_NAME := none }
  | "ORDINAL_POSITION" => { r with ORDINAL_POSITION := none }
  | "COLUMN_DEFAULT" => { r with COLUMN_DEFAULT := none }
  | "IS_NULLABLE" => { r with IS_NULLABLE := none }
  | "DATA_TYPE" => { r with DATA_TYPE := none }
  | "CHARACTER_MAXIMUM_LENGTH" => { r with CHARACTER_MAXIMUM_LENGTH := none }
  | "CHARACTER_OCTET_LENGTH" => { r with CHARACTER_OCTET_LENGTH := none }
  | "NUMERIC_PRECISION" => { r with NUMERIC_PRECISION := none }
  | "NUMERIC_SCALE" => { r with NUMERIC_SCALE := none }
  | "DATETIME_PRECISION" => { r with DATETIME_PRECISION := none }
  | "CHARACTER_SET_NAME" => { r with CHARACTER_SET_NAME := none }
  | "COLLATION_NAME" => { r with COLLATION_NAME := none }
  | "COLUMN_TYPE" => { r with COLUMN_TYPE := none }
  | "COLUMN_KEY" => { r with COLUMN_KEY := none }
  | "EXTRA" => { r with EXTRA := none }
  | "PRIVILEGES" => { r with PRIVILEGES := none }
  | "COLUMN_COMMENT" => { r with COLUMN_COMMENT := none }
  | "IS_GENERATED" => { r with IS_GENERATED := none }
  | "GENERATION_EXPRESSION" => { r with GENERATION_EXPRESSION := none }
  | _ => r

/-! ### ColumnModel: MySQLTableColumn
(src/unnamed/part_000, class MySQLTableColumn) -/

/-- Normalized, camel-cased column metadata (class MySQLTableColumn).
Field types follow the JSDoc of the class; every instance that matters is
produced by importFromRawData, whose validation guarantees these types. -/
structure MySQLTableColumn where
  tableCatalog : String
  tableSchema : String
  tableName : String
  columnName : String
  ordinalPosition : Int
  columnDefault : Option String
  isNullable : String
  dataType : String
  characterMaximumLength : Option Int
  characterOctetLength : Option Int
  numericPrecision : Option Int
  numericScale : Option Int
  datetimePrecision : Option Int
  characterSetName : Option String
  collationName : Option String
  columnType : String
  columnKey : String
  extra : String
  privileges : String
  columnComment : String
  isGenerated : String
  generationExpression : Option String
deriving DecidableEq

/-- A freshly constructed MySQLTableColumn (new MySQLTableColumn() with no
argument).  In JS its fields are undefined until importFromRawData runs;
the placeholder values here are never observed because every use either
overwrites all fields or aborts with the validation error. -/
def emptyMySQLTableColumn : MySQLTableColumn :=
  { tableCatalog := "", tableSchema := "", tableName := "", columnName := ""
    ordinalPosition := 0, columnDefault := none, isNullable := ""
    dataType := "", characterMaximumLength := none
    characterOctetLength := none, numericPrecision := none
    numericScale := none, datetimePrecision := none
    characterSetName := none, collationName := none, columnType := ""
    columnKey := "", extra := "", privileges := "", columnComment := ""
    isGenerated := "", generationExpression := none }

/-- Read a validated string field out of a JsVal (the validator has already
established that the value is a string when this is used). -/
def jsToStringD : JsVal → String
  | .vstr s => s
  | _ => ""

/-- Read a validated number field out of a JsVal. -/
def jsToIntD : JsVal → Int
  | .vnum n => n
  | _ => 0

/-- Read a validated string-or-null field out of a JsVal. -/
def jsToOptString : JsVal → Option String
  | .vstr s => some s
  | _ => none

/-- Read a validated number-or-null field out of a JsVal. -/
def jsToOptInt : JsVal → Option Int
  | .vnum n => some n
  | _ => none

/-- The 22 field assignments of importFromRawData, applied after the
validation succeeded. -/
def importedColumn (raw : RawObj) : MySQLTableColumn :=
  { tableCatalog := jsToStringD (accessRaw raw "TABLE_CATALOG")
    tableSchema := jsToStringD (accessRaw raw "TABLE_SCHEMA")
    tableName := jsToStringD (accessRaw raw "TABLE_NAME")
    columnName := jsToStringD (accessRaw raw "COLUMN_NAME")
    ordinalPosition := jsToIntD (accessRaw raw "ORDINAL_POSITION")
    columnDefault := jsToOptString (accessRaw raw "COLUMN_DEFAULT")
    isNullable := jsToStringD (accessRaw raw "IS_NULLABLE")
    dataType := jsToStringD (accessRaw raw "DATA_TYPE")
    characterMaximumLength := jsToOptInt (accessRaw raw "CHARACTER_MAXIMUM_LENGTH")
    characterOctetLength := jsToOptInt (accessRaw raw "CHARACTER_OCTET_LENGTH")
    numericPrecision := jsToOptInt (accessRaw raw "NUMERIC_PRECISION")
    numericScale := jsToOptInt (accessRaw raw "NUMERIC_SCALE")
    datetimePrecision := jsToOptInt (accessRaw raw "DATETIME_PRECISION")
    characterSetName := jsToOptString (accessRaw raw "CHARACTER_SET_NAME")
    collationName := jsToOptString (accessRaw raw "COLLATION_NAME")
    columnType := jsToStringD (accessRaw raw "COLUMN_TYPE")
    columnKey := jsToStringD (accessRaw raw "COLUMN_KEY")
    extra := jsToStringD (accessRaw raw "EXTRA")
    privileges := jsToStringD (accessRaw raw "PRIVILEGES")
    columnComment := jsToStringD (accessRaw raw "COLUMN_COMMENT")
    isGenerated := jsToStringD (accessRaw raw "IS_GENERATED")
    generationExpression := jsToOptString (accessRaw raw "GENERATION_EXPRESSION") }

/-- importFromRawData as a state transformer on the column object: the
method first runs assertColumnMetadataRaw, whose throw aborts the method
before any field assignment, and only then performs the 22 assignments.
The returned pair is (object state after the call, normal/thrown result).
-/
def importFromRawData (self : MySQLTableColumn) (raw : RawObj) :
    MySQLTableColumn × Except String Unit :=
  match assertColumnMetadataRaw raw with
  | .error e => (self, .error e)
  | .ok _ => (importedColumn raw, .ok ())

/-- Primary-key predicate of the column (columnKey === "PRI"). -/
def MySQLTableColumn.isPrimaryKey (c : MySQLTableColumn) : Bool :=
  c.columnKey == "PRI"

/-- Nullability predicate of the column (isNullable === "YES"). -/
def MySQLTableColumn.allowsNull (c : MySQLTableColumn) : Bool :=
  c.isNullable == "YES"

/-- Auto-increment predicate (extra.includes("auto_increment")). -/
def MySQLTableColumn.isAutoIncrement (c : MySQLTableColumn) : Bool :=
  strContains c.extra "auto_increment"

/-- getColumnDefinition of the column. -/
def MySQLTableColumn.getColumnDefinition (c : MySQLTableColumn) : String :=
  c.columnName ++ " " ++ c.columnType ++
  (if c.isPrimaryKey then " PRIMARY KEY" else "") ++
  (if c.isAutoIncrement then " AUTO_INCREMENT" else "") ++
  (if c.allowsNull then "" else " NOT NULL")

/-! ### A JSON value model, for JSON.stringify and JSON.parse -/

/-- JSON values (the shapes produced by serializing catalog data). -/
inductive Json where
  | str : String → Json
  | num : Int → Json
  | null : Json
  | arr : List Json → Json
  | obj : List (String × Json) → Json

/-- JSON encoding of a nullable string. -/
def optStrToJson : Option String → Json
  | some s => .str s
  | none => .null

/-- JSON encoding of a nullable number. -/
def optIntToJson : Option Int → Json
  | some n => .num n
  | none => .null

/-- toJSON of MySQLTableColumn: the spread of all own fields, so a plain
object with the 22 camel-cased keys in field-declaration order. -/
def MySQLTableColumn.toJSON (c : MySQLTableColumn) : List (String × Json) :=
  [("tableCatalog", .str c.tableCatalog),
   ("tableSchema", .str c.tableSchema),
   ("tableName", .str c.tableName),
   ("columnName", .str c.columnName),
   ("ordinalPosition", .num c.ordinalPosition),
   ("columnDefault", optStrToJson c.columnDefault),
   ("isNullable", .str c.isNullable),
   ("dataType", .str c.dataType),
   ("characterMaximumLength", optIntToJson c.characterMaximumLength),
   ("characterOctetLength", optIntToJson c.characterOctetLength),
   ("numericPrecision", optIntToJson c.numericPrecision),
   ("numericScale", optIntToJson c.numericScale),
   ("datetimePrecision", optIntToJson c.datetimePrecision),
   ("characterSetName", optStrToJson c.characterSetName),
   ("collationName", optStrToJson c.collationName),
   ("columnType", .str c.columnType),
   ("columnKey", .str c.columnKey),
   ("extra", .str c.extra),
   ("privileges", .str c.privileges),
   ("columnComment", .str c.columnComment),
   ("isGenerated", .str c.isGenerated),
   ("generationExpression", optStrToJson c.generationExpression)]

/-! ### TypeClassifier
(src/src/frontend/mysql_schema_helpers.js) -/

/-- hasIntegerDataType: throws for a data type containing bigint, else
tests the regex integer|int|smallint|tinyint|mediumint|bigint. -/
def hasIntegerDataType (column : MySQLTableColumn) : Except String Bool :=
  let dataType := lowerStr column.dataType
  if strContains dataType "bigint" then .error "bigint not supported"
  else .ok (strContains dataType "integer" || strContains dataType "int" ||
            strContains dataType "smallint" || strContains dataType "tinyint" ||
            strContains dataType "mediumint" || strContains dataType "bigint")

/-- hasBooleanDataType: a columnType of tinyint(1) is boolean outright;
otherwise an integer-typed column is boolean when its name matches
the anchored regex alternatives is_ , _is_ , has_ ; otherwise the data
type must literally be boolean. -/
def hasBooleanDataType (column : MySQLTableColumn) : Except String Bool :=
  let dataType := lowerStr column.dataType
  if lowerStr column.columnType = "tinyint(1)" then .ok true
  else
    match hasIntegerDataType column with
    | .error e => .error e
    | .ok true =>
        let columnName := lowerStr column.columnName
        .ok (startsWithStr columnName "is_" || strContains columnName "_is_" ||
             startsWithStr columnName "has_")
    | .ok false => .ok (dataType == "boolean")

/-- hasFloatDataType: regex float|double|real|decimal. -/
def hasFloatDataType (column : MySQLTableColumn) : Bool :=
  let dataType := lowerStr column.dataType
  strContains dataType "float" || strContains dataType "double" ||
  strContains dataType "real" || strContains dataType "decimal"

/-- hasStringDataType: regex char|varchar|tinytext|text|mediumtext|longtext. -/
def hasStringDataType (column : MySQLTableColumn) : Bool :=
  let dataType := lowerStr column.dataType
  strContains dataType "char" || strContains dataType "varchar" ||
  strContains dataType "tinytext" || strContains dataType "text" ||
  strContains dataType "mediumtext" || strContains dataType "longtext"

/-- hasDateDataType: regex date|time|datetime|timestamp. -/
def hasDateDataType (column : MySQLTableColumn) : Bool :=
  let dataType := lowerStr column.dataType
  strContains dataType "date" || strContains dataType "time" ||
  strContains dataType "datetime" || strContains dataType "timestamp"

/-- detectFieldTypeByColumnType: the priority classification into
bit / integer / string / float with string as the fallback. -/
def detectFieldTypeByColumnType (column : MySQLTableColumn) :
    Except String String :=
  match hasBooleanDataType column with
  | .error e => .error e
  | .ok true => .ok "bit"
  | .ok false =>
      match hasIntegerDataType column with
      | .error e => .error e
      | .ok true => .ok "integer"
      | .ok false =>
          if hasStringDataType column then .ok "string"
          else if hasFloatDataType column then .ok "float"
          else .ok "string"

/-! ### Insertion-order-preserving string-keyed maps (JS Map) -/

/-- Map.prototype.set: replace in place when the key exists, else append. -/
def mapSet {α : Type} (k : String) (v : α) :
    List (String × α) → List (String × α)
  | [] => [(k, v)]
  | (k2, v2) :: rest =>
      if k2 = k then (k, v) :: rest else (k2, v2) :: mapSet k v rest

/-- Map.prototype.get. -/
def mapGet {α : Type} (k : String) : List (String × α) → Option α
  | [] => none
  | (k2, v2) :: rest => if k2 = k then some v2 else mapGet k rest

/-! ### TableModel: MySQLTable
(src/unnamed/part_000, class MySQLTable) -/

/-- A table: its name plus the insertion-ordered column map. -/
structure MySQLTable where
  tableName : String
  columns : List (String × MySQLTableColumn)
deriving DecidableEq

/-- addColumn: this.columns.set(column.columnName, column). -/
def MySQLTable.addColumn (t : MySQLTable) (column : MySQLTableColumn) :
    MySQLTable :=
  { t with columns := mapSet column.columnName column t.columns }

/-- getColumns: Array.from(this.columns.values()). -/
def MySQLTable.getColumns (t : MySQLTable) : List MySQLTableColumn :=
  t.columns.map Prod.snd

/-- getColumn: this.columns.get(columnName) || null. -/
def MySQLTable.getColumn (t : MySQLTable) (columnName : String) :
    Option MySQLTableColumn :=
  mapGet columnName t.columns

/-- The MySQLTable constructor: for each raw column, import it into a fresh
MySQLTableColumn (which can throw) and key it by the raw COLUMN_NAME. -/
def mkMySQLTable (tableName : String) (columns : List RawObj) :
    Except String MySQLTable :=
  go { tableName := tableName, columns := [] } columns
where
  /-- Constructor loop over the raw column array. -/
  go (t : MySQLTable) : List RawObj → Except String MySQLTable
    | [] => .ok t
    | raw :: rest =>
        match importFromRawData emptyMySQLTableColumn raw with
        | (_, .error e) => .error e
        | (column, .ok _) =>
            let key := jsToStringD (accessRaw raw "COLUMN_NAME")
            go { t with columns := mapSet key column t.columns } rest

/-- escapeString of MySQLTable: single quotes doubled first, then
backslashes doubled. -/
def MySQLTable.escapeString (s : String) : String :=
  replaceAllChar (Char.ofNat 92) "\\\\" (replaceAllChar (Char.ofNat 39) "\x27\x27" s)

/-- formatDefaultValue of MySQLTable: type-sensitive rendering of a column
default for the generated CREATE TABLE statement. -/
def MySQLTable.formatDefaultValue (column : MySQLTableColumn) : String :=
  match column.columnDefault with
  | none => "NULL"
  | some d =>
      if lowerStr column.dataType ∈ ["char", "varchar", "text", "enum", "set"] then
        "\x27" ++ MySQLTable.escapeString d ++ "\x27"
      else if lowerStr column.dataType ∈ ["timestamp", "datetime"] ∧
              upperStr d = "CURRENT_TIMESTAMP" then
        "CURRENT_TIMESTAMP"
      else if lowerStr column.dataType ∈ ["blob", "binary"] then
        "x\x27" ++ d ++ "\x27"
      else
        d

/-- One column definition line of generateCreateTableQuery. -/
def columnDefinitionLine (column : MySQLTableColumn) : String :=
  "`" ++ column.columnName ++ "` " ++ column.columnType ++
  (if column.allowsNull then "" else " NOT NULL") ++
  (match column.columnDefault with
   | some _ => " DEFAULT " ++ MySQLTable.formatDefaultValue column
   | none => "") ++
  (if column.isAutoIncrement then " AUTO_INCREMENT" else "") ++
  (if column.columnComment ≠ "" then
     " COMMENT \x27" ++ MySQLTable.escapeString column.columnComment ++ "\x27"
   else "")

/-- The column loop of generateCreateTableQuery: collects, in column order,
the definition lines and the backtick-quoted primary-key, unique-key and
plain-index column names. -/
def collectDefinitions :
    List MySQLTableColumn →
      List String × List String × List String × List String
  | [] => ([], [], [], [])
  | column :: rest =>
      let (defs, pks, uks, idxs) := collectDefinitions rest
      (columnDefinitionLine column :: defs,
       (if column.isPrimaryKey then ("`" ++ column.columnName ++ "`") :: pks
        else pks),
       (if ¬ column.isPrimaryKey ∧ column.columnKey = "UNI" then
          ("`" ++ column.columnName ++ "`") :: uks
        else uks),
       (if ¬ column.isPrimaryKey ∧ column.columnKey ≠ "UNI" ∧
           column.columnKey = "MUL" then
          ("`" ++ column.columnName ++ "`") :: idxs
        else idxs))

/-- Options object of generateCreateTableQuery; absent properties are none.
-/
structure CreateTableOptions where
  engine : Option String := none
  charset : Option String := none
  collation : Option String := none
  comment : Option String := none

/-- JS truthiness of an optional string property. -/
def jsTruthyStr : Option String → Bool
  | some s => ¬ (s = "")
  | none => false

/-- The JS expression a || b for a an optional string property and b the
next fallback: the first operand wins when it is truthy. -/
def jsOrStr (a : Option String) (b : String) : String :=
  match a with
  | some s => if s = "" then b else s
  | none => b

/-- generateCreateTableQuery of MySQLTable: fails for a table without
columns, else assembles the CREATE TABLE statement. -/
def MySQLTable.generateCreateTableQuery (t : MySQLTable)
    (options : CreateTableOptions) : Except String String :=
  match t.getColumns with
  | [] => .error ("Table " ++ t.tableName ++ " has no columns")
  | c0 :: _ =>
      let columns := t.getColumns
      let (columnDefinitions, primaryKeys, uniqueKeys, _indexes) :=
        collectDefinitions columns
      let columnDefinitions := columnDefinitions ++
        (if primaryKeys ≠ [] then
           ["PRIMARY KEY (" ++ String.intercalate ", " primaryKeys ++ ")"]
         else []) ++
        uniqueKeys.map (fun uniqueCol =>
          "UNIQUE KEY `" ++ replaceAllChar (Char.ofNat 96) "" uniqueCol ++
          "_unique` (" ++ uniqueCol ++ ")")
      let query := "CREATE TABLE `" ++ t.tableName ++ "` (\n  " ++
        String.intercalate ",\n  " columnDefinitions ++ "\n)"
      let query := query ++
        (if jsTruthyStr options.engine then
           " ENGINE=" ++ (options.engine.getD "")
         else "")
      let charset := jsOrStr options.charset
        (jsOrStr c0.characterSetName "utf8mb4")
      let collation := jsOrStr options.collation
        (jsOrStr c0.collationName "utf8mb4_unicode_ci")
      let query := query ++ " DEFAULT CHARSET=" ++ charset ++
        " COLLATE=" ++ collation
      let query := query ++
        (if jsTruthyStr options.comment then
           " COMMENT=\x27" ++
             MySQLTable.escapeString (options.comment.getD "") ++ "\x27"
         else "")
      .ok (query ++ ";")

/-! ### DatabaseModel: MySQLDatabase -/

/-- A database: its name plus the insertion-ordered table map. -/
structure MySQLDatabase where
  databaseName : String
  tables : List (String × MySQLTable)
deriving DecidableEq

/-- addTable: this.tables.set(table.tableName, table). -/
def MySQLDatabase.addTable (db : MySQLDatabase) (table : MySQLTable) :
    MySQLDatabase :=
  { db with tables := mapSet table.tableName table db.tables }

/-- One step of the converter loops: find-or-create the table named by the
imported column, then add the column to it (the JS code mutates the table
object stored in the map, which the persistent map models by re-setting
the same key). -/
def addImportedColumn (db : MySQLDatabase) (column : MySQLTableColumn) :
    MySQLDatabase :=
  match mapGet column.tableName db.tables with
  | some table =>
      let updated := table.addColumn column
      { db with tables := mapSet column.tableName updated db.tables }
  | none =>
      let created := (MySQLTable.mk column.tableName []).addColumn column
      { db with tables := mapSet column.tableName created db.tables }

/-- The shared row loop of convertColumnMetadataToJsCode and
convertColumnMetadataToJsClassCode: import each raw row (abort on a
validation throw) and fold it into the database. -/
def buildLoop (db : MySQLDatabase) : List RawObj → Except String MySQLDatabase
  | [] => .ok db
  | raw :: rest =>
      match importFromRawData emptyMySQLTableColumn raw with
      | (_, .error e) => .error e
      | (column, .ok _) => buildLoop (addImportedColumn db column) rest

/-! ### JSON.stringify (the ECMA serialization used by the renderers) -/

/-- Lower-case hex digit. -/
def hexDigitChar (n : Nat) : Char :=
  if n < 10 then Char.ofNat (48 + n) else Char.ofNat (87 + n)

/-- Four-digit hex rendering for a \u escape. -/
def hex4 (n : Nat) : String :=
  ⟨[hexDigitChar (n / 4096 % 16), hexDigitChar (n / 256 % 16),
    hexDigitChar (n / 16 % 16), hexDigitChar (n % 16)]⟩

/-- The JSON escape of one string character. -/
def jsonEscapeChar (c : Char) : String :=
  if c = Char.ofNat 34 then "\\\""
  else if c = Char.ofNat 92 then "\\\\"
  else if c = Char.ofNat 8 then "\\b"
  else if c = Char.ofNat 9 then "\\t"
  else if c = Char.ofNat 10 then "\\n"
  else if c = Char.ofNat 12 then "\\f"
  else if c = Char.ofNat 13 then "\\r"
  else if c.toNat < 32 then "\\u" ++ hex4 c.toNat
  else String.singleton c

/-- The JSON quoting of a string value or object key. -/
def jsonQuote (s : String) : String :=
  "\"" ++ ⟨(s.data.map (fun c => (jsonEscapeChar c).data)).flatten⟩ ++ "\""

mutual

/-- JSON.stringify with an indentation gap: ind is the current indentation,
gap the per-level indentation (two spaces in this repository); with an
empty gap this is the compact JSON.stringify of a single value. -/
def jsonToStr (gap ind : String) : Json → String
  | .null => "null"
  | .str s => jsonQuote s
  | .num n => toString n
  | .arr [] => "[]"
  | .arr (x :: xs) =>
      "[\n" ++ ind ++ gap ++
        String.intercalate (",\n" ++ ind ++ gap)
          (jsonListToStr gap (ind ++ gap) (x :: xs)) ++
        "\n" ++ ind ++ "]"
  | .obj [] => "\x7b\x7d"
  | .obj (e :: es) =>
      "\x7b\n" ++ ind ++ gap ++
        String.intercalate (",\n" ++ ind ++ gap)
          (jsonEntriesToStr gap (ind ++ gap) (e :: es)) ++
        "\n" ++ ind ++ "\x7d"

/-- Serialization of the elements of a JSON array. -/
def jsonListToStr (gap ind : String) : List Json → List String
  | [] => []
  | x :: xs => jsonToStr gap ind x :: jsonListToStr gap ind xs

/-- Serialization of the members of a JSON object. -/
def jsonEntriesToStr (gap ind : String) : List (String × Json) → List String
  | [] => []
  | (k, v) :: rest =>
      (jsonQuote k ++ ": " ++ jsonToStr gap ind v) ::
        jsonEntriesToStr gap ind rest

end

/-! ### Renderers: convertColumnMetadataToJsCode and
convertColumnMetadataToJsClassCode (src/unnamed/part_000) -/

/-- upperCaseFirstLetter of the source. -/
def upperCaseFirstLetter (str : String) : String :=
  match str.data with
  | [] => ""
  | c :: rest => ⟨upperChar c :: rest⟩

/-- The JSDoc typedef header block that convertColumnMetadataToJsCode
emits as its first output element (a verbatim template literal). -/
def jsCodeTypedefHeader : String :=
  "\n/**\n * @typedef \x7bObject\x7d ColumnMetadataParams\n" ++
  " * @property \x7bstring\x7d tableCatalog - Table catalog (usually \x27def\x27)\n" ++
  " * @property \x7bstring\x7d tableSchema - Database/schema name\n" ++
  " * @property \x7bstring\x7d tableName - Table name\n" ++
  " * @property \x7bstring\x7d columnName - Column name\n" ++
  " * @property \x7bnumber\x7d ordinalPosition - Position in table (1-based)\n" ++
  " * @property \x7bstring|null\x7d columnDefault - Default value\n" ++
  " * @property \x7b\x27YES\x27|\x27NO\x27\x7d isNullable - Nullable status\n" ++
  " * @property \x7bstring\x7d dataType - Data type (e.g. \x27int\x27, \x27varchar\x27)\n" ++
  " * @property \x7bnumber|null\x7d characterMaximumLength - Max length for string types (characters)\n" ++
  " * @property \x7bnumber|null\x7d characterOctetLength - Max length for string types (bytes)\n" ++
  " * @property \x7bnumber|null\x7d numericPrecision - Precision for numeric types\n" ++
  " * @property \x7bnumber|null\x7d numericScale - Scale for numeric types\n" ++
  " * @property \x7bnumber|null\x7d datetimePrecision - Precision for datetime types\n" ++
  " * @property \x7bstring|null\x7d characterSetName - Character set for string types\n" ++
  " * @property \x7bstring|null\x7d collationName - Collation for string types\n" ++
  " * @property \x7bstring\x7d columnType - Full column type (e.g. \x27int(11) unsigned\x27)\n" ++
  " * @property \x7b\x27PRI\x27|\x27UNI\x27|\x27MUL\x27|\x27\x27\x7d columnKey - Key type (primary/unique/etc.)\n" ++
  " * @property \x7bstring\x7d extra - Extra information (e.g. \x27auto_increment\x27)\n" ++
  " * @property \x7bstring\x7d privileges - Column privileges\n" ++
  " * @property \x7bstring\x7d columnComment - Column comment\n" ++
  " * @property \x7b\x27NEVER\x27|\x27ALWAYS\x27|string\x7d isGenerated - Generation status\n" ++
  " * @property \x7bstring|null\x7d generationExpression - Generation expression\n" ++
  " */\n\n"

/-- The per-table lines pushed by the object-literal renderer loop. -/
def convertTableToJsObjectLines (table : MySQLTable) : List String :=
  ("export const " ++ table.tableName ++ " = \x7b") ::
  (table.getColumns.flatMap (fun column =>
     ("    " ++ column.columnName ++ ": \x7b") ::
     (column.toJSON.map (fun kv =>
        "        " ++ kv.1 ++ ": " ++ jsonToStr "" "" kv.2 ++ ",")) ++
     ["    \x7d,\n"])) ++
  ["\x7d;"]

/-- convertColumnMetadataToJsCode: build the database from the raw rows
(empty input short-circuits to the empty string), then emit the typedef
header and one object-literal declaration per table, joined by newlines. -/
def convertColumnMetadataToJsCode (data : List RawObj) :
    Except String String :=
  match data with
  | [] => .ok ""
  | first :: _ => do
      let dbName := jsToStringD (accessRaw first "TABLE_SCHEMA")
      let db ← buildLoop { databaseName := dbName, tables := [] } data
      let output := jsCodeTypedefHeader ::
        (db.tables.map Prod.snd).flatMap convertTableToJsObjectLines
      .ok (String.intercalate "\n" output)

/-- The per-table lines pushed by the typed-record (class) renderer loop. -/
def convertTableToJsClassLines (table : MySQLTable) : List String :=
  ("export class " ++ upperCaseFirstLetter table.tableName ++ "Item \x7b") ::
  (table.getColumns.flatMap (fun column =>
     ["    /** @type \x7b" ++
        (if hasStringDataType column then "string" else "number") ++
        "\x7d */",
      "    " ++ column.columnName ++ ";"])) ++
  ("    constructor(data) \x7b" ::
   (table.getColumns.map (fun column =>
      if hasStringDataType column then
        "        this." ++ column.columnName ++ " = String(data." ++
          column.columnName ++ ");"
      else
        "        this." ++ column.columnName ++ " = Number(data." ++
          column.columnName ++ ");")) ++
   ["    \x7d", "\x7d;"])

/-- convertColumnMetadataToJsClassCode: build the database from the raw
rows (empty input short-circuits to the empty string), then emit one class
declaration per table after an initial empty output element. -/
def convertColumnMetadataToJsClassCode (data : List RawObj) :
    Except String String :=
  match data with
  | [] => .ok ""
  | first :: _ => do
      let dbName := jsToStringD (accessRaw first "TABLE_SCHEMA")
      let db ← buildLoop { databaseName := dbName, tables := [] } data
      let output := "" ::
        (db.tables.map Prod.snd).flatMap convertTableToJsClassLines
      .ok (String.intercalate "\n" output)

/-! ### Frontend raw-JSON renderer
(src/src/frontend/index.js, render_button click handler) -/

/-- A well-formed raw catalog row as the server delivers it to the
frontend: the 22 fields with their catalog types.  This is the validated
shape of RawObj, used where the claims quantify over well-formed rows. -/
structure RawRow where
  TABLE_CATALOG : String
  TABLE_SCHEMA : String
  TABLE_NAME : String
  COLUMN_NAME : String
  ORDINAL_POSITION : Int
  COLUMN_DEFAULT : Option String
  IS_NULLABLE : String
  DATA_TYPE : String
  CHARACTER_MAXIMUM_LENGTH : Option Int
  CHARACTER_OCTET_LENGTH : Option Int
  NUMERIC_PRECISION : Option Int
  NUMERIC_SCALE : Option Int
  DATETIME_PRECISION : Option Int
  CHARACTER_SET_NAME : Option String
  COLLATION_NAME : Option String
  COLUMN_TYPE : String
  COLUMN_KEY : String
  EXTRA : String
  PRIVILEGES : String
  COLUMN_COMMENT : String
  IS_GENERATED : String
  GENERATION_EXPRESSION : Option String
deriving DecidableEq

/-- The JSON object a raw row denotes, keys in catalog order (the key
order in which the server serialized the row and in which JSON.stringify
re-serializes it). -/
def jsonOfRawRow (r : RawRow) : Json :=
  .obj
    [("TABLE_CATALOG", .str r.TABLE_CATALOG),
     ("TABLE_SCHEMA", .str r.TABLE_SCHEMA),
     ("TABLE_NAME", .str r.TABLE_NAME),
     ("COLUMN_NAME", .str r.COLUMN_NAME),
     ("ORDINAL_POSITION", .num r.ORDINAL_POSITION),
     ("COLUMN_DEFAULT", optStrToJson r.COLUMN_DEFAULT),
     ("IS_NULLABLE", .str r.IS_NULLABLE),
     ("DATA_TYPE", .str r.DATA_TYPE),
     ("CHARACTER_MAXIMUM_LENGTH", optIntToJson r.CHARACTER_MAXIMUM_LENGTH),
     ("CHARACTER_OCTET_LENGTH", optIntToJson r.CHARACTER_OCTET_LENGTH),
     ("NUMERIC_PRECISION", optIntToJson r.NUMERIC_PRECISION),
     ("NUMERIC_SCALE", optIntToJson r.NUMERIC_SCALE),
     ("DATETIME_PRECISION", optIntToJson r.DATETIME_PRECISION),
     ("CHARACTER_SET_NAME", optStrToJson r.CHARACTER_SET_NAME),
     ("COLLATION_NAME", optStrToJson r.COLLATION_NAME),
     ("COLUMN_TYPE", .str r.COLUMN_TYPE),
     ("COLUMN_KEY", .str r.COLUMN_KEY),
     ("EXTRA", .str r.EXTRA),
     ("PRIVILEGES", .str r.PRIVILEGES),
     ("COLUMN_COMMENT", .str r.COLUMN_COMMENT),
     ("IS_GENERATED", .str r.IS_GENERATED),
     ("GENERATION_EXPRESSION", optStrToJson r.GENERATION_EXPRESSION)]

/-- The selection loop of the render click handler: keep the rows whose
TABLE_NAME is truthy (a non-empty string) and appears among the checked
table names (indexOf != -1). -/
def filterSelectedSchema (tableSchema : List RawRow)
    (tableNames : List String) : List RawRow :=
  tableSchema.filter (fun r =>
    decide (r.TABLE_NAME ≠ "") && decide (r.TABLE_NAME ∈ tableNames))

/-- The render_button click handler's output:
JSON.stringify(result_schema, null, "  ") of the selected rows. -/
def renderRawJson (tableSchema : List RawRow) (tableNames : List String) :
    String :=
  jsonToStr "  " ""
    (Json.arr ((filterSelectedSchema tableSchema tableNames).map jsonOfRawRow))

/-! ### JSON.parse, at the level of the JSON value tree, specialized to
the row shape the renderer emits (the spec-side reading of parsing the
rendered text back) -/

/-- Decode a JSON string value. -/
def asStr : Json → Option String
  | .str s => some s
  | _ => none

/-- Decode a JSON number value. -/
def asNum : Json → Option Int
  | .num n => some n
  | _ => none

/-- Decode a JSON string-or-null value. -/
def asOptStr : Json → Option (Option String)
  | .str s => some (some s)
  | .null => some none
  | _ => none

/-- Decode a JSON number-or-null value. -/
def asOptNum : Json → Option (Option Int)
  | .num n => some (some n)
  | .null => some none
  | _ => none

/-- Consume one object member: the key must be the expected catalog key,
the value must decode with the given shape decoder; returns the decoded
value and the remaining members. -/
def parseStep {a : Type} (expected : String) (dec : Json → Option a) :
    List (String × Json) → Option (a × List (String × Json))
  | [] => none
  | kv :: rest =>
      if kv.1 = expected then (dec kv.2).map (fun x => (x, rest)) else none

/-- Parse the member list of one rendered row object: exactly the 22
catalog keys, in order, with values of the declared shapes. -/
def parseRowEntries (es : List (String × Json)) : Option RawRow :=
  match parseStep "TABLE_CATALOG" asStr es with
  | none => none
  | some p1 =>
    match parseStep "TABLE_SCHEMA" asStr p1.2 with
    | none => none
    | some p2 =>
      match parseStep "TABLE_NAME" asStr p2.2 with
      | none => none
      | some p3 =>
        match parseStep "COLUMN_NAME" asStr p3.2 with
        | none => none
        | some p4 =>
          match parseStep "ORDINAL_POSITION" asNum p4.2 with
          | none => none
          | some p5 =>
            match parseStep "COLUMN_DEFAULT" asOptStr p5.2 with
            | none => none
            | some p6 =>
              match parseStep "IS_NULLABLE" asStr p6.2 with
              | none => none
              | some p7 =>
                match parseStep "DATA_TYPE" asStr p7.2 with
                | none => none
                | some p8 =>
                  match parseStep "CHARACTER_MAXIMUM_LENGTH" asOptNum p8.2 with
                  | none => none
                  | some p9 =>
                    match parseStep "CHARACTER_OCTET_LENGTH" asOptNum p9.2 with
                    | none => none
                    | some p10 =>
                      match parseStep "NUMERIC_PRECISION" asOptNum p10.2 with
                      | none => none
                      | some p11 =>
                        match parseStep "NUMERIC_SCALE" asOptNum p11.2 with
                        | none => none
                        | some p12 =>
                          match parseStep "DATETIME_PRECISION" asOptNum p12.2 with
                          | none => none
                          | some p13 =>
                            match parseStep "CHARACTER_SET_NAME" asOptStr p13.2 with
                            | none => none
                            | some p14 =>
                              match parseStep "COLLATION_NAME" asOptStr p14.2 with
                              | none => none
                              | some p15 =>
                                match parseStep "COLUMN_TYPE" asStr p15.2 with
                                | none => none
                                | some p16 =>
                                  match parseStep "COLUMN_KEY" asStr p16.2 with
                                  | none => none
                                  | some p17 =>
                                    match parseStep "EXTRA" asStr p17.2 with
                                    | none => none
                                    | some p18 =>
                                      match parseStep "PRIVILEGES" asStr p18.2 with
                                      | none => none
                                      | some p19 =>
                                        match parseStep "COLUMN_COMMENT" asStr p19.2 with
                                        | none => none
                                        | some p20 =>
                                          match parseStep "IS_GENERATED" asStr p20.2 with
                                          | none => none
                                          | some p21 =>
                                            match parseStep "GENERATION_EXPRESSION" asOptStr p21.2 with
                                            | none => none
                                            | some p22 =>
                                              match p22.2 with
                                              | [] =>
                                                  some ⟨p1.1, p2.1, p3.1, p4.1, p5.1, p6.1, p7.1, p8.1, p9.1, p10.1,
                                                        p11.1, p12.1, p13.1, p14.1, p15.1, p16.1, p17.1, p18.1, p19.1,
                                                        p20.1, p21.1, p22.1⟩
                                              | _ => none

/-- Parse one rendered row object back into a RawRow. -/
def parseRowJson : Json → Option RawRow
  | .obj es => parseRowEntries es
  | _ => none
/-- Parse the elements of the rendered top-level array. -/
def parseRowListJson : List Json → Option (List RawRow)
  | [] => some []
  | j :: rest =>
      match parseRowJson j with
      | none => none
      | some r =>
          match parseRowListJson rest with
          | none => none
          | some rs => some (r :: rs)

/-- Parse a rendered row array back into its list of rows. -/
def parseRowsJson : Json → Option (List RawRow)
  | .arr js => parseRowListJson js
  | _ => none

/-! ### Concrete sample data used by counterexamples and witnesses -/

/-- A well-formed raw catalog row with all 22 fields present and valid. -/
def sampleRawObj : RawObj :=
  { TABLE_CATALOG := some (.vstr "def")
    TABLE_SCHEMA := some (.vstr "shop")
    TABLE_NAME := some (.vstr "users")
    COLUMN_NAME := some (.vstr "id")
    ORDINAL_POSITION := some (.vnum 1)
    COLUMN_DEFAULT := some .vnull
    IS_NULLABLE := some (.vstr "NO")
    DATA_TYPE := some (.vstr "int")
    CHARACTER_MAXIMUM_LENGTH := some .vnull
    CHARACTER_OCTET_LENGTH := some .vnull
    NUMERIC_PRECISION := some (.vnum 10)
    NUMERIC_SCALE := some (.vnum 0)
    DATETIME_PRECISION := some .vnull
    CHARACTER_SET_NAME := some .vnull
    COLLATION_NAME := some .vnull
    COLUMN_TYPE := some (.vstr "int(11)")
    COLUMN_KEY := some (.vstr "PRI")
    EXTRA := some (.vstr "auto_increment")
    PRIVILEGES := some (.vstr "select,insert")
    COLUMN_COMMENT := some (.vstr "")
    IS_GENERATED := some (.vstr "NEVER")
    GENERATION_EXPRESSION := some .vnull }

/-- A well-formed normalized column, the shape importFromRawData produces
from sampleRawObj. -/
def baseColumn : MySQLTableColumn :=
  { tableCatalog := "def", tableSchema := "shop", tableName := "users"
    columnName := "id", ordinalPosition := 1, columnDefault := none
    isNullable := "NO", dataType := "int", characterMaximumLength := none
    characterOctetLength := none, numericPrecision := some 10
    numericScale := some 0, datetimePrecision := none
    characterSetName := none, collationName := none, columnType := "int(11)"
    columnKey := "PRI", extra := "auto_increment"
    privileges := "select,insert", columnComment := "", isGenerated := "NEVER"
    generationExpression := none }

/-- A bigint column whose full column type is tinyint(1). -/
def bigintTinyint1Column : MySQLTableColumn :=
  { baseColumn with columnName := "flags", dataType := "bigint"
                    columnType := "tinyint(1)" }

/-- A bigint column with a bigint column type. -/
def bigintColumn : MySQLTableColumn :=
  { baseColumn with columnName := "big_id", dataType := "bigint"
                    columnType := "bigint(20)" }

/-- A spatial point column: its data type contains int as a substring
without being an integer type. -/
def pointColumn : MySQLTableColumn :=
  { baseColumn with columnName := "location", dataType := "point"
                    columnType := "point", columnKey := "", extra := "" }

/-- A varchar column whose default is the text 0. -/
def varcharZeroColumn : MySQLTableColumn :=
  { baseColumn with columnName := "code", dataType := "varchar"
                    columnType := "varchar(10)", columnDefault := some "0"
                    columnKey := "", extra := "" }

/-- A timestamp column defaulting to current_timestamp (lower case). -/
def timestampCtColumn : MySQLTableColumn :=
  { baseColumn with columnName := "created_at", dataType := "timestamp"
                    columnType := "timestamp"
                    columnDefault := some "current_timestamp"
                    columnKey := "", extra := "" }

/-! ### C1: classification of bigint data types -/

/-- C1 counterexample: the claim says classification raises
UnsupportedTypeError for every column whose data type contains bigint,
regardless of the other fields; but a bigint column whose columnType is
tinyint(1) classifies as bit without any error, because
hasBooleanDataType tests the columnType before hasIntegerDataType can
throw. -/
theorem c1_counterexample :
    strContains (lowerStr bigintTinyint1Column.dataType) "bigint" = true ∧
    detectFieldTypeByColumnType bigintTinyint1Column = .ok "bit" :=
  ⟨rfl, rfl⟩

/-- C1 amended: for every column whose lower-cased data type contains
bigint and whose lower-cased columnType is not tinyint(1), classification
throws the dedicated error bigint not supported (regardless of the column
name or any other field). -/
theorem c1_bigint_rejected (c : MySQLTableColumn)
    (hbig : strContains (lowerStr c.dataType) "bigint" = true)
    (hct : lowerStr c.columnType ≠ "tinyint(1)") :
    detectFieldTypeByColumnType c = .error "bigint not supported" := by
  have hint : hasIntegerDataType c = .error "bigint not supported" := by
    simp [hasIntegerDataType, hbig]
  have hbool : hasBooleanDataType c = .error "bigint not supported" := by
    simp [hasBooleanDataType, hct, hint]
  simp [detectFieldTypeByColumnType, hbool]

/-- C1 witness: the amended theorem applied to a concrete bigint column
with a boolean-looking name, whose columnType is not tinyint(1). -/
theorem c1_bigint_rejected_witness :
    detectFieldTypeByColumnType
      { bigintColumn with columnName := "is_big" } =
      .error "bigint not supported" :=
  c1_bigint_rejected { bigintColumn with columnName := "is_big" }
    (by decide) (by decide)

/-! ### C4: type-sensitive default-value formatting -/

/-- C4: default formatting in the generated CREATE TABLE statement is
decided by the column data type: string-family types are single-quoted and
SQL-escaped, timestamp/datetime defaults equal (case-insensitively) to
CURRENT_TIMESTAMP emit the bare keyword, blob/binary emit a hex literal,
and every remaining case emits the raw default text. -/
theorem c4_default_formatting (c : MySQLTableColumn) (d : String)
    (hd : c.columnDefault = some d) :
    (lowerStr c.dataType ∈ ["char", "varchar", "text", "enum", "set"] →
       MySQLTable.formatDefaultValue c =
         "\x27" ++ MySQLTable.escapeString d ++ "\x27") ∧
    (lowerStr c.dataType ∈ ["timestamp", "datetime"] →
     upperStr d = "CURRENT_TIMESTAMP" →
       MySQLTable.formatDefaultValue c = "CURRENT_TIMESTAMP") ∧
    (lowerStr c.dataType ∈ ["blob", "binary"] →
       MySQLTable.formatDefaultValue c = "x\x27" ++ d ++ "\x27") ∧
    (lowerStr c.dataType ∉ ["char", "varchar", "text", "enum", "set"] →
     ¬(lowerStr c.dataType ∈ ["timestamp", "datetime"] ∧
        upperStr d = "CURRENT_TIMESTAMP") →
     lowerStr c.dataType ∉ ["blob", "binary"] →
       MySQLTable.formatDefaultValue c = d) := by
  refine ⟨?_, ?_, ?_, ?_⟩
  · intro h
    simp only [List.mem_cons, List.not_mem_nil, or_false] at h
    rcases h with h | h | h | h | h <;>
      simp [MySQLTable.formatDefaultValue, hd, h]
  · intro h hct
    simp only [List.mem_cons, List.not_mem_nil, or_false] at h
    rcases h with h | h <;>
      simp [MySQLTable.formatDefaultValue, hd, h, hct]
  · intro h
    simp only [List.mem_cons, List.not_mem_nil, or_false] at h
    rcases h with h | h <;>
      simp [MySQLTable.formatDefaultValue, hd, h]
  · intro h1 h2 h3
    simp only [MySQLTable.formatDefaultValue, hd]
    split_ifs
    rfl

/-- C4 witness: a varchar column with default 0 renders the quoted
default, and a timestamp column with default current_timestamp renders the
bare CURRENT_TIMESTAMP keyword. -/
theorem c4_default_formatting_witness :
    MySQLTable.formatDefaultValue varcharZeroColumn = "\x270\x27" ∧
    MySQLTable.formatDefaultValue timestampCtColumn = "CURRENT_TIMESTAMP" :=
  ⟨(c4_default_formatting varcharZeroColumn "0" rfl).1 (by decide),
   (c4_default_formatting timestampCtColumn "current_timestamp" rfl).2.1
     (by decide) (by decide)⟩

/-! ### C5: DDL generation on a table without columns -/

/-- C5: generating the CREATE TABLE statement of a table with zero columns
throws the EmptyTableError (Table name has no columns) and produces no
statement text. -/
theorem c5_empty_table_error (t : MySQLTable) (opts : CreateTableOptions)
    (h : t.columns = []) :
    t.generateCreateTableQuery opts =
      .error ("Table " ++ t.tableName ++ " has no columns") := by
  simp [MySQLTable.generateCreateTableQuery, MySQLTable.getColumns, h]

/-- C5 witness: the theorem applied to a concrete empty table. -/
theorem c5_empty_table_error_witness :
    MySQLTable.generateCreateTableQuery (MySQLTable.mk "empty_t" []) {} =
      .error "Table empty_t has no columns" :=
  c5_empty_table_error (MySQLTable.mk "empty_t" []) {} rfl

/-! ### C9: importFromRawData is atomic -/

/-- C9: importing raw data into a column is atomic: the validation runs
before any field assignment, so when the validation throws, every field of
the column is left exactly as it was (the resulting state is the original
column) and the error is propagated. -/
theorem c9_import_atomic (c : MySQLTableColumn) (raw : RawObj) (e : String)
    (h : assertColumnMetadataRaw raw = .error e) :
    importFromRawData c raw = (c, .error e) := by
  simp [importFromRawData, h]

/-- C9 witness: importing a row with a missing required field into a
concrete column leaves the column unchanged. -/
theorem c9_import_atomic_witness :
    importFromRawData baseColumn { sampleRawObj with TABLE_CATALOG := none } =
      (baseColumn, .error "Missing required field: TABLE_CATALOG") :=
  c9_import_atomic baseColumn { sampleRawObj with TABLE_CATALOG := none }
    "Missing required field: TABLE_CATALOG" rfl

/-! ### C10: integer detection is a substring match -/

/-- C10: integer detection matches substrings, not whole tokens: a column
whose lower-cased data type contains int but not bigint, whose lower-cased
columnType is not tinyint(1) (the code compares the columnType
case-insensitively), and whose lower-cased name matches none of the
boolean-name heuristics is_, wrapped _is_, has_, classifies as integer.
In particular the spatial type point classifies as integer. -/
theorem c10_integer_substring (c : MySQLTableColumn)
    (hint : strContains (lowerStr c.dataType) "int" = true)
    (hbig : strContains (lowerStr c.dataType) "bigint" = false)
    (hct : lowerStr c.columnType ≠ "tinyint(1)")
    (hn1 : startsWithStr (lowerStr c.columnName) "is_" = false)
    (hn2 : strContains (lowerStr c.columnName) "_is_" = false)
    (hn3 : startsWithStr (lowerStr c.columnName) "has_" = false) :
    detectFieldTypeByColumnType c = .ok "integer" := by
  have h1 : hasIntegerDataType c = .ok true := by
    simp [hasIntegerDataType, hbig, hint]
  have h2 : hasBooleanDataType c = .ok false := by
    simp [hasBooleanDataType, hct, h1, hn1, hn2, hn3]
  simp [detectFieldTypeByColumnType, h2, h1]

/-- C10 witness: the theorem applied to the concrete point column. -/
theorem c10_integer_substring_witness :
    detectFieldTypeByColumnType pointColumn = .ok "integer" :=
  c10_integer_substring pointColumn (by decide) (by decide) (by decide)
    (by decide) (by decide) (by decide)

/-! ### C7: renderer outputs on the empty input row list -/

/-- C7 counterexample: the claim says every renderer returns the empty
string on the empty input list, but the frontend JSON renderer emits the
two-character empty-array text instead. -/
theorem c7_counterexample :
    renderRawJson [] [] = "[]" ∧ renderRawJson [] [] ≠ "" := by
  constructor
  · rfl
  · decide

/-- C7 amended: on the empty input row list the object-literal and
typed-record source renderers return the empty string, while the JSON
renderer returns the empty JSON array text; none of them fails. -/
theorem c7_empty_input :
    convertColumnMetadataToJsCode [] = .ok "" ∧
    convertColumnMetadataToJsClassCode [] = .ok "" ∧
    renderRawJson [] [] = "[]" :=
  ⟨rfl, rfl, rfl⟩

/-! ### Map lemmas for the insertion-order-preserving keyed maps -/

/-- Setting a key makes it retrievable with exactly the new value. -/
theorem mapGet_mapSet_self {α : Type} (k : String) (v : α)
    (m : List (String × α)) : mapGet k (mapSet k v m) = some v := by
  induction m with
  | nil => simp [mapSet, mapGet]
  | cons p rest ih =>
      obtain ⟨k2, v2⟩ := p
      by_cases h : k2 = k <;> simp [mapSet, mapGet, h, ih]

/-- Setting an existing key keeps the key list (and hence positions)
unchanged. -/
theorem keys_mapSet_of_mem {α : Type} (k : String) (v : α)
    (m : List (String × α)) (h : k ∈ m.map Prod.fst) :
    (mapSet k v m).map Prod.fst = m.map Prod.fst := by
  induction m with
  | nil => simp at h
  | cons p rest ih =>
      obtain ⟨k2, v2⟩ := p
      by_cases hk : k2 = k
      · simp [mapSet, hk]
      · simp only [List.map_cons, List.mem_cons] at h
        rcases h with h | h
        · exact absurd h.symm hk
        · simp [mapSet, hk, ih h]

/-- Setting an existing key does not change the number of entries. -/
theorem length_mapSet_of_mem {α : Type} (k : String) (v : α)
    (m : List (String × α)) (h : k ∈ m.map Prod.fst) :
    (mapSet k v m).length = m.length := by
  have := keys_mapSet_of_mem k v m h
  have h1 : ((mapSet k v m).map Prod.fst).length = (m.map Prod.fst).length := by
    rw [this]
  simpa using h1

/-- A freshly set key is among the keys. -/
theorem mem_keys_mapSet {α : Type} (k : String) (v : α)
    (m : List (String × α)) : k ∈ (mapSet k v m).map Prod.fst := by
  induction m with
  | nil => simp [mapSet]
  | cons p rest ih =>
      obtain ⟨k2, v2⟩ := p
      by_cases h : k2 = k <;> simp [mapSet, h, ih]

/-- Every entry of a map after a set is the new entry or an old entry. -/
theorem mem_mapSet_elim {α : Type} {k : String} {v : α}
    {m : List (String × α)} {p : String × α} (h : p ∈ mapSet k v m) :
    p = (k, v) ∨ p ∈ m := by
  induction m with
  | nil => simpa [mapSet] using h
  | cons q rest ih =>
      obtain ⟨k2, v2⟩ := q
      by_cases hk : k2 = k
      · simp [mapSet, hk] at h
        rcases h with h | h
        · exact Or.inl (by simp [h])
        · exact Or.inr (by simp [h])
      · simp [mapSet, hk] at h
        rcases h with h | h
        · exact Or.inr (by simp [h])
        · rcases ih h with h2 | h2
          · exact Or.inl h2
          · exact Or.inr (by simp [h2])

/-- A successful lookup comes from an entry of the map. -/
theorem mapGet_mem {α : Type} {k : String} {v : α}
    {m : List (String × α)} (h : mapGet k m = some v) : (k, v) ∈ m := by
  induction m with
  | nil => simp [mapGet] at h
  | cons q rest ih =>
      obtain ⟨k2, v2⟩ := q
      by_cases hk : k2 = k
      · simp [mapGet, hk] at h
        simp [hk, h]
      · simp [mapGet, hk] at h
        simp [ih h]

/-! ### C8: last-write-wins on duplicate column names -/

/-- C8: adding two validated columns with the same table name and the same
column name leaves the second column stored under that name, does not
increase the table column count, and keeps the column-name order (so the
replacement happens in place of the earlier column). -/
theorem c8_last_write_wins (t : MySQLTable) (c1 c2 : MySQLTableColumn)
    (_htab : c1.tableName = c2.tableName)
    (hname : c1.columnName = c2.columnName) :
    ((t.addColumn c1).addColumn c2).getColumn c2.columnName = some c2 ∧
    ((t.addColumn c1).addColumn c2).columns.length =
      (t.addColumn c1).columns.length ∧
    ((t.addColumn c1).addColumn c2).columns.map Prod.fst =
      (t.addColumn c1).columns.map Prod.fst := by
  have hmem : c2.columnName ∈ (mapSet c1.columnName c1 t.columns).map Prod.fst := by
    rw [← hname]
    exact mem_keys_mapSet c1.columnName c1 t.columns
  refine ⟨?_, ?_, ?_⟩
  · show mapGet c2.columnName
        (mapSet c2.columnName c2 (mapSet c1.columnName c1 t.columns)) = some c2
    exact mapGet_mapSet_self _ _ _
  · show (mapSet c2.columnName c2 (mapSet c1.columnName c1 t.columns)).length =
        (mapSet c1.columnName c1 t.columns).length
    exact length_mapSet_of_mem _ _ _ hmem
  · show (mapSet c2.columnName c2 (mapSet c1.columnName c1 t.columns)).map Prod.fst =
        (mapSet c1.columnName c1 t.columns).map Prod.fst
    exact keys_mapSet_of_mem _ _ _ hmem

/-- C8 witness: the theorem applied to two concrete rows for the same
table and column name with different metadata. -/
theorem c8_last_write_wins_witness :
    (((MySQLTable.mk "users" []).addColumn baseColumn).addColumn
        { baseColumn with columnType := "int(10) unsigned" }).getColumn
      "id" = some { baseColumn with columnType := "int(10) unsigned" } ∧
    (((MySQLTable.mk "users" []).addColumn baseColumn).addColumn
        { baseColumn with columnType := "int(10) unsigned" }).columns.length =
      (((MySQLTable.mk "users" []).addColumn baseColumn)).columns.length ∧
    (((MySQLTable.mk "users" []).addColumn baseColumn).addColumn
        { baseColumn with columnType := "int(10) unsigned" }).columns.map
        Prod.fst =
      (((MySQLTable.mk "users" []).addColumn baseColumn)).columns.map
        Prod.fst :=
  c8_last_write_wins (MySQLTable.mk "users" [])
    baseColumn { baseColumn with columnType := "int(10) unsigned" } rfl rfl

/-! ### C6: the table-name invariant -/

/-- addColumn does not change the table name. -/
theorem MySQLTable.addColumn_tableName (t : MySQLTable)
    (c : MySQLTableColumn) : (t.addColumn c).tableName = t.tableName := rfl

/-- addColumn sets the column under its own column name. -/
theorem MySQLTable.addColumn_columns (t : MySQLTable)
    (c : MySQLTableColumn) :
    (t.addColumn c).columns = mapSet c.columnName c t.columns := rfl

/-- The invariant maintained by the converter build loop: every table is
stored under its own name and every column a table contains carries the
table's name. -/
def dbInvariant (db : MySQLDatabase) : Prop :=
  ∀ k t, (k, t) ∈ db.tables →
    t.tableName = k ∧
    ∀ ck c, (ck, c) ∈ t.columns → c.tableName = t.tableName

/-- Adding an imported column to the table selected by the column's own
tableName preserves the invariant. -/
theorem dbInvariant_addImportedColumn (db : MySQLDatabase)
    (column : MySQLTableColumn) (h : dbInvariant db) :
    dbInvariant (addImportedColumn db column) := by
  intro k t hmem
  rcases hget : mapGet column.tableName db.tables with _ | table
  · simp only [addImportedColumn, hget] at hmem
    rcases mem_mapSet_elim hmem with he | he
    · obtain ⟨hk, ht⟩ := Prod.ext_iff.mp he
      simp only at hk ht
      subst hk
      subst ht
      refine ⟨rfl, ?_⟩
      intro ck c hc
      simp [MySQLTable.addColumn_columns, mapSet] at hc
      rw [hc.2]
      rfl
    · exact h k t he
  · obtain ⟨htn, hcols⟩ := h column.tableName table (mapGet_mem hget)
    simp only [addImportedColumn, hget] at hmem
    rcases mem_mapSet_elim hmem with he | he
    · obtain ⟨hk, ht⟩ := Prod.ext_iff.mp he
      simp only at hk ht
      subst hk
      subst ht
      refine ⟨by simp [MySQLTable.addColumn_tableName, htn], ?_⟩
      intro ck c hc
      rw [MySQLTable.addColumn_columns] at hc
      rcases mem_mapSet_elim hc with he2 | he2
      · obtain ⟨h1, h2⟩ := Prod.ext_iff.mp he2
        simp only at h1 h2
        subst h2
        simp [MySQLTable.addColumn_tableName, htn]
      · have := hcols ck c he2
        simpa [MySQLTable.addColumn_tableName] using this
    · exact h k t he

/-- The converter build loop preserves the invariant through a whole row
list. -/
theorem buildLoop_invariant (data : List RawObj) :
    ∀ (db0 db : MySQLDatabase), dbInvariant db0 →
      buildLoop db0 data = .ok db → dbInvariant db := by
  induction data with
  | nil =>
      intro db0 db h0 hb
      simp [buildLoop] at hb
      rw [← hb]
      exact h0
  | cons raw rest ih =>
      intro db0 db h0 hb
      simp only [buildLoop] at hb
      rcases him : importFromRawData emptyMySQLTableColumn raw with ⟨col, res⟩
      rw [him] at hb
      rcases res with e | u
      · simp at hb
      · simp only at hb
        exact ih _ db (dbInvariant_addImportedColumn db0 col h0) hb

/-- C6 counterexample: the claim says the invariant holds after any
sequence of column-inserting operations, but addColumn does not enforce
it: adding a column whose tableName is b to a table named a leaves a
contained column whose table-name field differs from the table's name. -/
theorem c6_counterexample :
    ("x", { baseColumn with tableName := "b", columnName := "x" }) ∈
      ((MySQLTable.mk "a" []).addColumn
        { baseColumn with tableName := "b", columnName := "x" }).columns ∧
    ({ baseColumn with tableName := "b", columnName := "x" }
        : MySQLTableColumn).tableName ≠
      ((MySQLTable.mk "a" []).addColumn
        { baseColumn with tableName := "b", columnName := "x" }).tableName := by
  constructor
  · simp [MySQLTable.addColumn_columns, mapSet]
  · decide

/-- C6 amended: for every database built by the converters' row loop
(which keys each table by the imported column's own tableName), every
column of every contained table carries the table's name.  The raw
MySQLTable operations alone do not enforce this invariant. -/
theorem c6_table_name_invariant (dbName : String) (data : List RawObj)
    (db : MySQLDatabase)
    (hb : buildLoop { databaseName := dbName, tables := [] } data = .ok db) :
    ∀ k t ck c, (k, t) ∈ db.tables → (ck, c) ∈ t.columns →
      c.tableName = t.tableName := by
  intro k t ck c hkt hcc
  have h0 : dbInvariant { databaseName := dbName, tables := [] } := by
    intro k2 t2 hmem
    simp at hmem
  exact ((buildLoop_invariant data _ db h0 hb) k t hkt).2 ck c hcc

/-- C6 witness: the amended theorem applied to the database built from one
concrete valid row. -/
theorem c6_table_name_invariant_witness :
    baseColumn.tableName =
      ((MySQLTable.mk "users" []).addColumn baseColumn).tableName :=
  c6_table_name_invariant "shop" [sampleRawObj]
    { databaseName := "shop"
      tables := [("users", (MySQLTable.mk "users" []).addColumn baseColumn)] }
    rfl
    "users" ((MySQLTable.mk "users" []).addColumn baseColumn)
    "id" baseColumn (by simp)
    (by decide)

/-! ### C3: the raw-JSON renderer output and its parse-back -/

/-- Decoding a string value inverts its encoding. -/
theorem asStr_str (s : String) : asStr (.str s) = some s := rfl

/-- Decoding a number value inverts its encoding. -/
theorem asNum_num (n : Int) : asNum (.num n) = some n := rfl

/-- Decoding a nullable string inverts its encoding. -/
theorem asOptStr_optStrToJson (x : Option String) :
    asOptStr (optStrToJson x) = some x := by cases x <;> rfl

/-- Decoding a nullable number inverts its encoding. -/
theorem asOptNum_optIntToJson (x : Option Int) :
    asOptNum (optIntToJson x) = some x := by cases x <;> rfl

/-- Consuming a member whose key matches applies the decoder. -/
theorem parseStep_cons {α : Type} (k : String) (dec : Json → Option α)
    (v : Json) (rest : List (String × Json)) :
    parseStep k dec ((k, v) :: rest) = (dec v).map (fun x => (x, rest)) := by
  simp [parseStep]

/-- Parsing inverts rendering for one row: the rendered row object decodes
back to exactly the original raw row. -/
theorem parseRowJson_roundtrip (r : RawRow) :
    parseRowJson (jsonOfRawRow r) = some r := by
  obtain ⟨tc, ts, tn, cn, op, cd, inl, dt, cml, col, np, ns, dp, csn, cln,
          ct, ck, ex, pv, cc, ig, ge⟩ := r
  simp [jsonOfRawRow, parseRowJson, parseRowEntries, parseStep_cons,
        asStr_str, asNum_num, asOptStr_optStrToJson, asOptNum_optIntToJson]

/-- Parsing inverts rendering for a whole row list, preserving the order
of the rows (hence the ordinal order of the columns). -/
theorem parseRowsJson_roundtrip (rows : List RawRow) :
    parseRowsJson (Json.arr (rows.map jsonOfRawRow)) = some rows := by
  simp only [parseRowsJson]
  induction rows with
  | nil => simp [parseRowListJson]
  | cons r rest ih => simp [parseRowListJson, parseRowJson_roundtrip, ih]

/-- C3 counterexample: the claim says the JSON renderer emits camel-cased
ColumnModel entries, but the rendered text of a selected row carries the
raw SNAKE_CASE catalog keys and no camel-cased key. -/
theorem c3_counterexample :
    strContains (renderRawJson
        [{ TABLE_CATALOG := "def", TABLE_SCHEMA := "shop"
           TABLE_NAME := "users", COLUMN_NAME := "id", ORDINAL_POSITION := 1
           COLUMN_DEFAULT := none, IS_NULLABLE := "NO", DATA_TYPE := "int"
           CHARACTER_MAXIMUM_LENGTH := none, CHARACTER_OCTET_LENGTH := none
           NUMERIC_PRECISION := some 10, NUMERIC_SCALE := some 0
           DATETIME_PRECISION := none, CHARACTER_SET_NAME := none
           COLLATION_NAME := none, COLUMN_TYPE := "int(11)"
           COLUMN_KEY := "PRI", EXTRA := "auto_increment"
           PRIVILEGES := "select,insert", COLUMN_COMMENT := ""
           IS_GENERATED := "NEVER", GENERATION_EXPRESSION := none }]
        ["users"]) "TABLE_CATALOG" = true ∧
    strContains (renderRawJson
        [{ TABLE_CATALOG := "def", TABLE_SCHEMA := "shop"
           TABLE_NAME := "users", COLUMN_NAME := "id", ORDINAL_POSITION := 1
           COLUMN_DEFAULT := none, IS_NULLABLE := "NO", DATA_TYPE := "int"
           CHARACTER_MAXIMUM_LENGTH := none, CHARACTER_OCTET_LENGTH := none
           NUMERIC_PRECISION := some 10, NUMERIC_SCALE := some 0
           DATETIME_PRECISION := none, CHARACTER_SET_NAME := none
           COLLATION_NAME := none, COLUMN_TYPE := "int(11)"
           COLUMN_KEY := "PRI", EXTRA := "auto_increment"
           PRIVILEGES := "select,insert", COLUMN_COMMENT := ""
           IS_GENERATED := "NEVER", GENERATION_EXPRESSION := none }]
        ["users"]) "tableCatalog" = false :=
  ⟨rfl, rfl⟩

/-- C3 amended: for every non-empty selected row list describing one table
with columns in ordinal order, the renderer output is the two-space
pretty-printed JSON serialization of the array of entries that keep the
raw SNAKE_CASE RawColumnRow field set (not camel-cased), and that array
parses back to exactly the selected rows, with every field value and the
original ordinal order preserved. -/
theorem c3_render_roundtrip (schema : List RawRow) (names : List String)
    (tname : String)
    (_hne : filterSelectedSchema schema names ≠ [])
    (_hone : ∀ r ∈ filterSelectedSchema schema names, r.TABLE_NAME = tname)
    (_hord : (filterSelectedSchema schema names).Pairwise
        (fun a b => a.ORDINAL_POSITION < b.ORDINAL_POSITION)) :
    renderRawJson schema names =
      jsonToStr "  " ""
        (Json.arr ((filterSelectedSchema schema names).map jsonOfRawRow)) ∧
    parseRowsJson
        (Json.arr ((filterSelectedSchema schema names).map jsonOfRawRow)) =
      some (filterSelectedSchema schema names) :=
  ⟨rfl, parseRowsJson_roundtrip _⟩

/-- A well-formed raw frontend row for the C3 witness. -/
def sampleRawRow : RawRow :=
  { TABLE_CATALOG := "def", TABLE_SCHEMA := "shop", TABLE_NAME := "users"
    COLUMN_NAME := "id", ORDINAL_POSITION := 1, COLUMN_DEFAULT := none
    IS_NULLABLE := "NO", DATA_TYPE := "int"
    CHARACTER_MAXIMUM_LENGTH := none, CHARACTER_OCTET_LENGTH := none
    NUMERIC_PRECISION := some 10, NUMERIC_SCALE := some 0
    DATETIME_PRECISION := none, CHARACTER_SET_NAME := none
    COLLATION_NAME := none, COLUMN_TYPE := "int(11)", COLUMN_KEY := "PRI"
    EXTRA := "auto_increment", PRIVILEGES := "select,insert"
    COLUMN_COMMENT := "", IS_GENERATED := "NEVER"
    GENERATION_EXPRESSION := none }

/-- C3 witness: the amended theorem applied to a concrete one-row
selection. -/
theorem c3_render_roundtrip_witness :
    renderRawJson [sampleRawRow] ["users"] =
      jsonToStr "  " ""
        (Json.arr ((filterSelectedSchema [sampleRawRow] ["users"]).map
          jsonOfRawRow)) ∧
    parseRowsJson
        (Json.arr ((filterSelectedSchema [sampleRawRow] ["users"]).map
          jsonOfRawRow)) =
      some (filterSelectedSchema [sampleRawRow] ["users"]) :=
  c3_render_roundtrip [sampleRawRow] ["users"] "users"
    (by decide) (by decide) (by decide)

/-! ### C2: the validator accepts exactly the fully-shaped rows -/

/-- Sequencing two checks succeeds exactly when both succeed. -/
theorem except_seq_ok (a b : Except String Unit) :
    (do let _ ← a; let _ ← b; pure true : Except String Bool) = .ok true ↔
      a = .ok () ∧ b = .ok () := by
  rcases a with e | u <;> rcases b with e2 | u2 <;>
    simp [Bind.bind, Except.bind, pure, Except.pure]

/-- The validator succeeds exactly when both of its loops succeed. -/
theorem assertColumnMetadataRaw_ok_iff (r : RawObj) :
    assertColumnMetadataRaw r = .ok true ↔
      checkRequiredKeys r requiredKeys = .ok () ∧
      runFieldValidators r columnValidators = .ok () := by
  unfold assertColumnMetadataRaw
  exact except_seq_ok _ _

/-- A failing required-key loop is the whole validator error. -/
theorem assert_error_of_checkRequired (r : RawObj) (e : String)
    (h : checkRequiredKeys r requiredKeys = .error e) :
    assertColumnMetadataRaw r = .error e := by
  unfold assertColumnMetadataRaw
  rw [h]
  rfl

/-- The required-key loop succeeds exactly when every listed key is
present. -/
theorem checkRequiredKeys_ok_iff (r : RawObj) (ks : List String) :
    checkRequiredKeys r ks = .ok () ↔
      ∀ k ∈ ks, (getRawField r k).isSome = true := by
  induction ks with
  | nil => simp [checkRequiredKeys]
  | cons k ks ih =>
      by_cases h : (getRawField r k).isSome = true <;>
        simp [checkRequiredKeys, List.forall_mem_cons, h, ih]

/-- The validator loop succeeds exactly when every field validator
passes on the value it reads. -/
theorem runFieldValidators_ok_iff (r : RawObj)
    (L : List (String × (JsVal → Option String))) :
    runFieldValidators r L = .ok () ↔
      ∀ p ∈ L, p.2 (accessRaw r p.1) = none := by
  induction L with
  | nil => simp [runFieldValidators]
  | cons p rest ih =>
      obtain ⟨k, f⟩ := p
      rcases hf : f (accessRaw r k) with _ | msg <;>
        simp [runFieldValidators, hf, ih, List.forall_mem_cons]

/-- A validator of the shape if-pass-else-message passes exactly when
its condition holds. -/
theorem ite_none_some_eq_none {α : Type} (c : Prop) [Decidable c]
    (m : α) : ((if c then none else some m) = none) ↔ c := by
  split <;> simp_all

/-- The typeof string test is the string shape. -/
theorem jsTypeof_eq_string_iff (v : JsVal) :
    jsTypeof v = "string" ↔ isStringV v = true := by
  cases v <;> simp [jsTypeof, isStringV]

/-- The typeof number test is the number shape. -/
theorem jsTypeof_eq_number_iff (v : JsVal) :
    jsTypeof v = "number" ↔ isNumberV v = true := by
  cases v <;> simp [jsTypeof, isNumberV]

/-- The null-or-string test is the nullable-string shape. -/
theorem strOrNull_iff (v : JsVal) :
    (v = .vnull ∨ isStringV v = true) ↔ isStringOrNullV v = true := by
  cases v <;> simp [isStringV, isStringOrNullV]

/-- The null-or-number test is the nullable-number shape. -/
theorem numOrNull_iff (v : JsVal) :
    (v = .vnull ∨ isNumberV v = true) ↔ isNumberOrNullV v = true := by
  cases v <;> simp [isNumberV, isNumberOrNullV]

/-- The YES/NO membership test is the isNullable enumeration shape. -/
theorem isNullable_iff (v : JsVal) :
    (v = .vstr "YES" ∨ v = .vstr "NO") ↔ isNullableShape v = true := by
  cases v <;> simp [isNullableShape]

/-- The PRI/UNI/MUL/empty membership test is the columnKey shape. -/
theorem columnKey_iff (v : JsVal) :
    (v = .vstr "PRI" ∨ v = .vstr "UNI" ∨ v = .vstr "MUL" ∨ v = .vstr "") ↔
      columnKeyShape v = true := by
  cases v <;> simp [columnKeyShape, or_assoc]

/-- The NEVER/ALWAYS/any-string test is just the string shape. -/
theorem isGenerated_iff (v : JsVal) :
    (v = .vstr "NEVER" ∨ v = .vstr "ALWAYS" ∨ isStringV v = true) ↔
      isStringV v = true := by
  cases v <;> simp [isStringV]

/-- All 22 validators pass exactly when the spec-side shape conjunction
holds. -/
theorem validators_pass_iff (r : RawObj) :
    (∀ p ∈ columnValidators, p.2 (accessRaw r p.1) = none) ↔
      allFieldsValid r = true := by
  simp only [columnValidators, List.forall_mem_cons, List.not_mem_nil,
    false_implies, implies_true, and_true, ite_none_some_eq_none,
    jsTypeof_eq_string_iff, jsTypeof_eq_number_iff, strOrNull_iff,
    numOrNull_iff, isNullable_iff, columnKey_iff, isGenerated_iff,
    allFieldsValid, Bool.and_eq_true]

/-- A field whose read value has the string shape is present. -/
theorem isSome_of_isStringV {o : Option JsVal}
    (h : isStringV (o.getD .vundefined) = true) : o.isSome = true := by
  cases o <;> simp_all [isStringV]

/-- A field whose read value has the number shape is present. -/
theorem isSome_of_isNumberV {o : Option JsVal}
    (h : isNumberV (o.getD .vundefined) = true) : o.isSome = true := by
  cases o <;> simp_all [isNumberV]

/-- A field whose read value has the YES-or-NO shape is present. -/
theorem isSome_of_isNullableShape {o : Option JsVal}
    (h : isNullableShape (o.getD .vundefined) = true) : o.isSome = true := by
  cases o <;> simp_all [isNullableShape]

/-- A field whose read value has the column-key shape is present. -/
theorem isSome_of_columnKeyShape {o : Option JsVal}
    (h : columnKeyShape (o.getD .vundefined) = true) : o.isSome = true := by
  cases o <;> simp_all [columnKeyShape]

/-- A row on which all shapes hold has every required key present. -/
theorem required_present_of_allFieldsValid (r : RawObj)
    (h : allFieldsValid r = true) :
    ∀ k ∈ requiredKeys, (getRawField r k).isSome = true := by
  simp only [allFieldsValid, Bool.and_eq_true] at h
  obtain ⟨h1, h2, h3, h4, h5, h6, h7, h8, h9, h10, h11, h12, h13, h14,
    h15, h16, h17, h18, h19, h20, h21, h22⟩ := h
  intro k hk
  simp only [requiredKeys, List.mem_cons, List.not_mem_nil, or_false] at hk
  rcases hk with rfl | rfl | rfl | rfl | rfl | rfl | rfl | rfl | rfl |
    rfl | rfl | rfl | rfl
  · exact isSome_of_isStringV h1
  · exact isSome_of_isStringV h2
  · exact isSome_of_isStringV h3
  · exact isSome_of_isStringV h4
  · exact isSome_of_isNumberV h5
  · exact isSome_of_isNullableShape h7
  · exact isSome_of_isStringV h8
  · exact isSome_of_isStringV h16
  · exact isSome_of_columnKeyShape h17
  · exact isSome_of_isStringV h18
  · exact isSome_of_isStringV h19
  · exact isSome_of_isStringV h20
  · exact isSome_of_isStringV h21


/-- Reading a literal required key is the corresponding field (one
reduction lemma per required key, so that rewriting does not have to
reduce the string match of getRawField). -/
theorem getRawField_TABLE_CATALOG (r : RawObj) :
    getRawField r "TABLE_CATALOG" = r.TABLE_CATALOG := rfl

/-- Reading the literal key TABLE_SCHEMA is the corresponding field. -/
theorem getRawField_TABLE_SCHEMA (r : RawObj) :
    getRawField r "TABLE_SCHEMA" = r.TABLE_SCHEMA := rfl

/-- Reading the literal key TABLE_NAME is the corresponding field. -/
theorem getRawField_TABLE_NAME (r : RawObj) :
    getRawField r "TABLE_NAME" = r.TABLE_NAME := rfl

/-- Reading the literal key COLUMN_NAME is the corresponding field. -/
theorem getRawField_COLUMN_NAME (r : RawObj) :
    getRawField r "COLUMN_NAME" = r.COLUMN_NAME := rfl

/-- Reading the literal key ORDINAL_POSITION is the corresponding field. -/
theorem getRawField_ORDINAL_POSITION (r : RawObj) :
    getRawField r "ORDINAL_POSITION" = r.ORDINAL_POSITION := rfl

/-- Reading the literal key IS_NULLABLE is the corresponding field. -/
theorem getRawField_IS_NULLABLE (r : RawObj) :
    getRawField r "IS_NULLABLE" = r.IS_NULLABLE := rfl

/-- Reading the literal key DATA_TYPE is the corresponding field. -/
theorem getRawField_DATA_TYPE (r : RawObj) :
    getRawField r "DATA_TYPE" = r.DATA_TYPE := rfl

/-- Reading the literal key COLUMN_TYPE is the corresponding field. -/
theorem getRawField_COLUMN_TYPE (r : RawObj) :
    getRawField r "COLUMN_TYPE" = r.COLUMN_TYPE := rfl

/-- Reading the literal key COLUMN_KEY is the corresponding field. -/
theorem getRawField_COLUMN_KEY (r : RawObj) :
    getRawField r "COLUMN_KEY" = r.COLUMN_KEY := rfl

/-- Reading the literal key EXTRA is the corresponding field. -/
theorem getRawField_EXTRA (r : RawObj) :
    getRawField r "EXTRA" = r.EXTRA := rfl

/-- Reading the literal key PRIVILEGES is the corresponding field. -/
theorem getRawField_PRIVILEGES (r : RawObj) :
    getRawField r "PRIVILEGES" = r.PRIVILEGES := rfl

/-- Reading the literal key COLUMN_COMMENT is the corresponding field. -/
theorem getRawField_COLUMN_COMMENT (r : RawObj) :
    getRawField r "COLUMN_COMMENT" = r.COLUMN_COMMENT := rfl

/-- Reading the literal key IS_GENERATED is the corresponding field. -/
theorem getRawField_IS_GENERATED (r : RawObj) :
    getRawField r "IS_GENERATED" = r.IS_GENERATED := rfl

/-- Removing the literal key TABLE_CATALOG clears that field. -/
theorem removeRawField_TABLE_CATALOG (r : RawObj) :
    removeRawField "TABLE_CATALOG" r = { r with TABLE_CATALOG := none } := rfl

/-- Removing the literal key TABLE_SCHEMA clears that field. -/
theorem removeRawField_TABLE_SCHEMA (r : RawObj) :
    removeRawField "TABLE_SCHEMA" r = { r with TABLE_SCHEMA := none } := rfl

/-- Removing the literal key TABLE_NAME clears that field. -/
theorem removeRawField_TABLE_NAME (r : RawObj) :
    removeRawField "TABLE_NAME" r = { r with TABLE_NAME := none } := rfl

/-- Removing the literal key COLUMN_NAME clears that field. -/
theorem removeRawField_COLUMN_NAME (r : RawObj) :
    removeRawField "COLUMN_NAME" r = { r with COLUMN_NAME := none } := rfl

/-- Removing the literal key ORDINAL_POSITION clears that field. -/
theorem removeRawField_ORDINAL_POSITION (r : RawObj) :
    removeRawField "ORDINAL_POSITION" r = { r with ORDINAL_POSITION := none } := rfl

/-- Removing the literal key IS_NULLABLE clears that field. -/
theorem removeRawField_IS_NULLABLE (r : RawObj) :
    removeRawField "IS_NULLABLE" r = { r with IS_NULLABLE := none } := rfl

/-- Removing the literal key DATA_TYPE clears that field. -/
theorem removeRawField_DATA_TYPE (r : RawObj) :
    removeRawField "DATA_TYPE" r = { r with DATA_TYPE := none } := rfl

/-- Removing the literal key COLUMN_TYPE clears that field. -/
theorem removeRawField_COLUMN_TYPE (r : RawObj) :
    removeRawField "COLUMN_TYPE" r = { r with COLUMN_TYPE := none } := rfl

/-- Removing the literal key COLUMN_KEY clears that field. -/
theorem removeRawField_COLUMN_KEY (r : RawObj) :
    removeRawField "COLUMN_KEY" r = { r with COLUMN_KEY := none } := rfl

/-- Removing the literal key EXTRA clears that field. -/
theorem removeRawField_EXTRA (r : RawObj) :
    removeRawField "EXTRA" r = { r with EXTRA := none } := rfl

/-- Removing the literal key PRIVILEGES clears that field. -/
theorem removeRawField_PRIVILEGES (r : RawObj) :
    removeRawField "PRIVILEGES" r = { r with PRIVILEGES := none } := rfl

/-- Removing the literal key COLUMN_COMMENT clears that field. -/
theorem removeRawField_COLUMN_COMMENT (r : RawObj) :
    removeRawField "COLUMN_COMMENT" r = { r with COLUMN_COMMENT := none } := rfl

/-- Removing the literal key IS_GENERATED clears that field. -/
theorem removeRawField_IS_GENERATED (r : RawObj) :
    removeRawField "IS_GENERATED" r = { r with IS_GENERATED := none } := rfl

/-- Removing one required field from a row on which every shape holds
makes the validator fail, naming exactly the removed field. -/
theorem assert_removed_required (r : RawObj)
    (h : allFieldsValid r = true) :
    ∀ k ∈ requiredKeys,
      assertColumnMetadataRaw (removeRawField k r) =
        .error ("Missing required field: " ++ k) := by
  have hpres := required_present_of_allFieldsValid r h
  have p1 : r.TABLE_CATALOG.isSome = true :=
    hpres "TABLE_CATALOG" (by simp [requiredKeys])
  have p2 : r.TABLE_SCHEMA.isSome = true :=
    hpres "TABLE_SCHEMA" (by simp [requiredKeys])
  have p3 : r.TABLE_NAME.isSome = true :=
    hpres "TABLE_NAME" (by simp [requiredKeys])
  have p4 : r.COLUMN_NAME.isSome = true :=
    hpres "COLUMN_NAME" (by simp [requiredKeys])
  have p5 : r.ORDINAL_POSITION.isSome = true :=
    hpres "ORDINAL_POSITION" (by simp [requiredKeys])
  have p6 : r.IS_NULLABLE.isSome = true :=
    hpres "IS_NULLABLE" (by simp [requiredKeys])
  have p7 : r.DATA_TYPE.isSome = true :=
    hpres "DATA_TYPE" (by simp [requiredKeys])
  have p8 : r.COLUMN_TYPE.isSome = true :=
    hpres "COLUMN_TYPE" (by simp [requiredKeys])
  have p9 : r.COLUMN_KEY.isSome = true :=
    hpres "COLUMN_KEY" (by simp [requiredKeys])
  have p10 : r.EXTRA.isSome = true :=
    hpres "EXTRA" (by simp [requiredKeys])
  have p11 : r.PRIVILEGES.isSome = true :=
    hpres "PRIVILEGES" (by simp [requiredKeys])
  have p12 : r.COLUMN_COMMENT.isSome = true :=
    hpres "COLUMN_COMMENT" (by simp [requiredKeys])
  have p13 : r.IS_GENERATED.isSome = true :=
    hpres "IS_GENERATED" (by simp [requiredKeys])
  intro k hk
  apply assert_error_of_checkRequired
  simp only [requiredKeys, List.mem_cons, List.not_mem_nil, or_false] at hk
  rcases hk with rfl | rfl | rfl | rfl | rfl | rfl | rfl | rfl | rfl |
    rfl | rfl | rfl | rfl <;>
    simp [checkRequiredKeys, requiredKeys,
      getRawField_TABLE_CATALOG, getRawField_TABLE_SCHEMA, getRawField_TABLE_NAME, getRawField_COLUMN_NAME, getRawField_ORDINAL_POSITION, getRawField_IS_NULLABLE, getRawField_DATA_TYPE, getRawField_COLUMN_TYPE, getRawField_COLUMN_KEY, getRawField_EXTRA, getRawField_PRIVILEGES, getRawField_COLUMN_COMMENT, getRawField_IS_GENERATED,
      removeRawField_TABLE_CATALOG, removeRawField_TABLE_SCHEMA, removeRawField_TABLE_NAME, removeRawField_COLUMN_NAME, removeRawField_ORDINAL_POSITION, removeRawField_IS_NULLABLE, removeRawField_DATA_TYPE, removeRawField_COLUMN_TYPE, removeRawField_COLUMN_KEY, removeRawField_EXTRA, removeRawField_PRIVILEGES, removeRawField_COLUMN_COMMENT, removeRawField_IS_GENERATED,
      p1, p2, p3, p4, p5, p6, p7, p8, p9, p10, p11, p12, p13]

/-- C2: the claim says validation succeeds iff the thirteen required
fields are present and every present field matches its shape; in fact
the validator runs every one of the 22 field validators on the read
value, and an absent optional field reads as undefined, which no
validator accepts.  Amended: validation succeeds iff all 22 fields
(required and optional alike) are present with values of their declared
shapes, and removing any one required field from a fully-valid row
fails naming exactly that field. -/
theorem c2_validator_accepts_exactly_shaped (r : RawObj) :
    (assertColumnMetadataRaw r = .ok true ↔ allFieldsValid r = true) ∧
    (allFieldsValid r = true →
      ∀ k ∈ requiredKeys,
        assertColumnMetadataRaw (removeRawField k r) =
          .error ("Missing required field: " ++ k)) := by
  constructor
  · rw [assertColumnMetadataRaw_ok_iff]
    constructor
    · rintro ⟨_, hval⟩
      exact (validators_pass_iff r).mp
        ((runFieldValidators_ok_iff r columnValidators).mp hval)
    · intro h
      exact ⟨(checkRequiredKeys_ok_iff r requiredKeys).mpr
          (required_present_of_allFieldsValid r h),
        (runFieldValidators_ok_iff r columnValidators).mpr
          ((validators_pass_iff r).mpr h)⟩
  · exact assert_removed_required r

/-- C2 counterexample: a row with all thirteen required fields present
and valid and every present field well-shaped, but with the optional
COLUMN_DEFAULT absent, is rejected by the validator (the claim says it
validates successfully). -/
theorem c2_counterexample :
    (∀ k ∈ requiredKeys,
      (getRawField { sampleRawObj with COLUMN_DEFAULT := none } k).isSome
        = true) ∧
    presentFieldsValid { sampleRawObj with COLUMN_DEFAULT := none } = true ∧
    assertColumnMetadataRaw { sampleRawObj with COLUMN_DEFAULT := none } =
      .error "Invalid COLUMN_DEFAULT: Expected string or null, got undefined" :=
  ⟨by decide, by decide, rfl⟩

/-- C2 witness: the amended theorem applied to a concrete fully-valid
row and to the removal of its COLUMN_NAME field. -/
theorem c2_witness :
    assertColumnMetadataRaw sampleRawObj = .ok true ∧
    assertColumnMetadataRaw (removeRawField "COLUMN_NAME" sampleRawObj) =
      .error ("Missing required field: " ++ "COLUMN_NAME") :=
  ⟨(c2_validator_accepts_exactly_shaped sampleRawObj).1.mpr (by decide),
   (c2_validator_accepts_exactly_shaped sampleRawObj).2 (by decide)
     "COLUMN_NAME" (by decide)⟩
